import Mathlib

/-!
# The in-memory custom-metrics provider (`pkg/provider/provider.go`)

A shallow embedding of `memoryProvider` and its methods.

Conventions of the embedding.

* Go `int64` values are integers of `Int`; every arithmetic operation of the
  source is followed by `wrapInt64`, the two's-complement wrap-around of the
  Go specification.  Integer division is truncated and faults on a zero
  divisor; the fault is the `Except.error` of `Except Panic`.
* A method returning `(pointer, error)` returns either `nil, err` or
  `&x, nil`; its result is `Except.error err` or `Except.ok x`.  The result
  of `valueFor`, which returns an integer next to the error, is a pair
  `Int × Option GoError`, `none` for the `nil` error.
* The method receiver is passed explicitly; a method that writes the receiver
  returns the new receiver next to its results.
* The collaborators (`apimeta.RESTMapper`, `dynamic.ClientPool`) are records of
  functions.  A collaborator call returning `(x, err)` is a function into
  `Except GoError _`.
* `glog.Errorf` writes to the process log and `time.Now()` reads the wall
  clock; neither the log nor the `Timestamp` field of a sample is part of the
  embedding.
-/

namespace Provider

/-! ## Machine integers -/

/-- Two's-complement wrap-around of an integer to the range of `int64`. -/
def wrapInt64 (x : Int) : Int := (x + 2 ^ 63) % 2 ^ 64 - 2 ^ 63

/-- The integer is a value of `int64`. -/
def inInt64 (x : Int) : Prop := -(2 ^ 63) ≤ x ∧ x < 2 ^ 63

instance (x : Int) : Decidable (inInt64 x) := by unfold inInt64; infer_instance

/-- A run-time fault of the Go program, with its message. -/
abbrev Panic := String

/-- Go `a + b` on `int64`. -/
def int64Add (a b : Int) : Int := wrapInt64 (a + b)

/-- Go `a * b` on `int64`. -/
def int64Mul (a b : Int) : Int := wrapInt64 (a * b)

/-- Go `a / b` on `int64`: truncated division, a run-time fault when `b` is zero. -/
def int64Div (a b : Int) : Except Panic Int :=
  if b = 0 then .error "runtime error: integer divide by zero"
  else .ok (wrapInt64 (Int.tdiv a b))

deriving instance DecidableEq for Except

/-! ## Errors -/

/-- Go `error` values that occur in the provider. -/
inductive GoError where
  /-- An error value made by a collaborator (the mapper, the client pool, a client). -/
  | collaborator (msg : String)
  /-- The result of `fmt.Errorf(msg)`. -/
  | errorf (msg : String)
  /-- The result of `apierr.NewInternalError(cause)`. -/
  | internalError (cause : GoError)
  deriving DecidableEq

/-! ## Data of `k8s.io/apimachinery` that the provider uses -/

/-- Type `schema.GroupResource`. -/
structure GroupResource where
  Group : String
  Resource : String
  deriving DecidableEq

/-- Type `schema.GroupVersionResource`. -/
structure GroupVersionResource where
  Group : String
  Version : String
  Resource : String
  deriving DecidableEq

/-- Type `schema.GroupVersionKind`. -/
structure GroupVersionKind where
  Group : String
  Version : String
  Kind : String
  deriving DecidableEq

/-- Method `GroupResource.WithVersion`. -/
def GroupResource.WithVersion (gr : GroupResource) (version : String) : GroupVersionResource :=
  { Group := gr.Group, Version := version, Resource := gr.Resource }

/-- Method `GroupVersionResource.GroupResource`. -/
def GroupVersionResource.GroupResource (gvr : GroupVersionResource) : GroupResource :=
  { Group := gvr.Group, Resource := gvr.Resource }

/-- Constant `runtime.APIVersionInternal`. -/
def APIVersionInternal : String := "__internal"

/-- The part of `apimeta.RESTMapper` that the provider calls. -/
structure RESTMapper where
  ResourceFor : GroupVersionResource → Except GoError GroupVersionResource
  KindFor : GroupVersionResource → Except GoError GroupVersionKind

/-- The name and namespace of a listed object (`metav1.Object`). -/
structure ObjectMeta where
  Namespace : String
  Name : String
  deriving DecidableEq

/-- A `runtime.Object` as returned by a list call: either it has an `Items`
slice, whose elements all implement `metav1.Object` (as those of an
unstructured list do), or it is a single object. -/
inductive RuntimeObject where
  | list (items : List ObjectMeta)
  | single (obj : ObjectMeta)
  deriving DecidableEq

/-- Function `apimeta.IsListType`. -/
def IsListType : RuntimeObject → Bool
  | .list _ => true
  | .single _ => false

/-- Type `metav1.APIResource`, the two fields the dynamic client reads. -/
structure APIResource where
  Name : String
  Namespaced : Bool
  deriving DecidableEq

/-- Type `metav1.ListOptions`, the field the provider sets. -/
structure ListOptions where
  LabelSelector : String
  deriving DecidableEq

/-- A `labels.Selector`, given by what its `String()` method returns. -/
abbrev Selector := String

/-- The object returned by `client.Resource(apiRes, namespace)`. -/
structure ResourceClient where
  List : ListOptions → Except GoError RuntimeObject

/-- The object returned by `ClientForGroupVersionResource`. -/
structure DynamicClient where
  Resource : APIResource → String → ResourceClient

/-- Type `dynamic.ClientPool`. -/
structure ClientPool where
  ClientForGroupVersionResource : GroupVersionResource → Except GoError DynamicClient

/-! ## Data of the metrics API -/

/-- The format of a `resource.Quantity`. -/
inductive Format where
  | DecimalSI
  | BinarySI
  | DecimalExponent
  deriving DecidableEq

/-- A `resource.Quantity` made by `NewMilliQuantity`: the number of thousandths. -/
structure Quantity where
  MilliValue : Int
  Format : Format
  deriving DecidableEq

/-- Function `resource.NewMilliQuantity`. -/
def NewMilliQuantity (value : Int) (format : Format) : Quantity :=
  { MilliValue := value, Format := format }

/-- Type `api.ObjectReference`, the fields the provider sets. -/
structure ObjectReference where
  APIVersion : String
  Kind : String
  Name : String
  Namespace : String
  deriving DecidableEq

/-- Type `custom_metrics.MetricValue` without its `Timestamp`. -/
structure MetricValue where
  DescribedObject : ObjectReference
  MetricName : String
  Value : Quantity
  deriving DecidableEq

/-- Type `custom_metrics.MetricValueList`. -/
structure MetricValueList where
  Items : List MetricValue
  deriving DecidableEq

/-- Type `provider.MetricInfo`. -/
structure MetricInfo where
  GroupResource : GroupResource
  Metric : String
  Namespaced : Bool
  deriving DecidableEq

/-- Modelled from the spec: method `MetricInfo.Normalized` of the imported
package `custom-metrics-apiserver/pkg/provider`, whose body is not part of the
sources.  It asks the resolver to canonicalize the resource type; the result
has the canonical group-resource and keeps the metric name and the namespaced
flag; a resolver failure is returned unmodified. -/
def MetricInfo.Normalized (i : MetricInfo) (mapper : RESTMapper) : Except GoError MetricInfo :=
  match mapper.ResourceFor (i.GroupResource.WithVersion "") with
  | .error err => .error err
  | .ok normalizedGroupRes => .ok { i with GroupResource := normalizedGroupRes.GroupResource }

/-- Modelled from the spec: the contract of the resource type resolver, an
external collaborator whose implementation is not part of the sources.  The
resolver returns the canonical form of a resource type (sections 2 and 4.1):
the form it answers is itself canonical, that is, asked for the group-resource
it answered, the resolver succeeds with that same group-resource. -/
def RESTMapper.AnswersCanonical (mapper : RESTMapper) : Prop :=
  ∀ (groupResource : GroupResource) (gvr : GroupVersionResource),
    mapper.ResourceFor (groupResource.WithVersion "") = .ok gvr →
    ∃ gvr1 : GroupVersionResource,
      mapper.ResourceFor (gvr.GroupResource.WithVersion "") = .ok gvr1 ∧
      gvr1.GroupResource = gvr.GroupResource

/-! ## The provider -/

/-- Type `memoryProvider`; `values` is the Go map, `none` for an absent key. -/
structure memoryProvider where
  client : ClientPool
  mapper : RESTMapper
  values : MetricInfo → Option Int

/-- Function `NewMemoryProvider`. -/
def NewMemoryProvider (client : ClientPool) (mapper : RESTMapper) : memoryProvider :=
  { client := client, mapper := mapper, values := fun _ => none }

/-- Go `m[k]` on `map[MetricInfo]int64`: the zero value for an absent key. -/
def mapIndex (values : MetricInfo → Option Int) (k : MetricInfo) : Int :=
  (values k).getD 0

/-- Go `m[k] = v`. -/
def mapAssign (values : MetricInfo → Option Int) (k : MetricInfo) (v : Int) :
    MetricInfo → Option Int :=
  fun k' => if k' = k then some v else values k'

/-- Method `memoryProvider.valueFor`. -/
def valueFor (m : memoryProvider) (groupResource : GroupResource) (metricName : String)
    (namespaced : Bool) : (Int × Option GoError) × memoryProvider :=
  let info : MetricInfo :=
    { GroupResource := groupResource, Metric := metricName, Namespaced := namespaced }
  match info.Normalized m.mapper with
  | .error err => ((0, some err), m)
  | .ok info =>
    let value := mapIndex m.values info
    let value := int64Add value 1
    ((value, none), { m with values := mapAssign m.values info value })

/-- Method `memoryProvider.metricFor`. -/
def metricFor (m : memoryProvider) (value : Int) (groupResource : GroupResource)
    (ns name metricName : String) : Except GoError MetricValue :=
  match m.mapper.KindFor (groupResource.WithVersion "") with
  | .error err => .error err
  | .ok kind =>
    .ok
      { DescribedObject :=
          { APIVersion := groupResource.Group ++ "/" ++ APIVersionInternal
            Kind := kind.Kind
            Name := name
            Namespace := ns }
        MetricName := metricName
        Value := NewMilliQuantity (int64Mul value 100) Format.DecimalSI }

/-- Function `apimeta.EachListItem` on the items of a list, for a callback that
reads and writes the slice `res`: the items are visited in order and the first
error returned by the callback ends the iteration. -/
def eachItem (fn : ObjectMeta → List MetricValue → Option GoError × List MetricValue) :
    List ObjectMeta → List MetricValue → Option GoError × List MetricValue
  | [], res => (none, res)
  | item :: rest, res =>
    match fn item res with
    | (some err, res) => (some err, res)
    | (none, res) => eachItem fn rest res

/-- Function `apimeta.EachListItem`. -/
def EachListItem (list : RuntimeObject)
    (fn : ObjectMeta → List MetricValue → Option GoError × List MetricValue)
    (res : List MetricValue) : Option GoError × List MetricValue :=
  match list with
  | .list items => eachItem fn items res
  | .single _ => (some (.collaborator "object does not implement the List interfaces"), res)

/-- The callback that `metricsFor` passes to `EachListItem`. -/
def metricsForItem (p : memoryProvider) (groupResource : GroupResource) (metricName : String)
    (objMeta : ObjectMeta) (res : List MetricValue) : Option GoError × List MetricValue :=
  match metricFor p 0 groupResource objMeta.Namespace objMeta.Name metricName with
  | .error err => (some err, res)
  | .ok value => (none, res ++ [value])

/-- The loop `for i := range res` of `metricsFor`: at each index of `res` the
quotient is computed anew and written to the `Value` of that element.  The
divisor `int64(len(res))` is the length `len` of the whole slice, which as a
Go `int` is a value of `int64`. -/
def setValues (totalValue : Int) (len : Nat) : List MetricValue → Except Panic (List MetricValue)
  | [] => .ok []
  | v :: rest =>
    match int64Div (int64Mul 100 totalValue) (len : Int) with
    | .error f => .error f
    | .ok q =>
      match setValues totalValue len rest with
      | .error f => .error f
      | .ok rest => .ok ({ v with Value := NewMilliQuantity q Format.DecimalSI } :: rest)

/-- Method `memoryProvider.metricsFor`. -/
def metricsFor (p : memoryProvider) (totalValue : Int) (groupResource : GroupResource)
    (metricName : String) (list : RuntimeObject) :
    Except Panic (Except GoError MetricValueList) :=
  if !IsListType list then
    .ok (.error (.errorf "returned object was not a list"))
  else
    match EachListItem list (metricsForItem p groupResource metricName) [] with
    | (some err, _) => .ok (.error err)
    | (none, res) =>
      match setValues totalValue res.length res with
      | .error f => .error f
      | .ok res => .ok (.ok { Items := res })

/-- Method `memoryProvider.GetRootScopedMetricByName`. -/
def GetRootScopedMetricByName (p : memoryProvider) (groupResource : GroupResource)
    (name metricName : String) : Except GoError MetricValue × memoryProvider :=
  match valueFor p groupResource metricName false with
  | ((_, some err), p) => (.error err, p)
  | ((value, none), p) => (metricFor p value groupResource "" name metricName, p)

/-- Method `memoryProvider.GetRootScopedMetricBySelector`. -/
def GetRootScopedMetricBySelector (p : memoryProvider) (groupResource : GroupResource)
    (selector : Selector) (metricName : String) :
    Except Panic (Except GoError MetricValueList) × memoryProvider :=
  match p.client.ClientForGroupVersionResource (groupResource.WithVersion "") with
  | .error _ =>
    (.ok (.error (.internalError (.errorf "unable to list matching resources"))), p)
  | .ok client =>
    match valueFor p groupResource metricName false with
    | ((_, some err), p) => (.ok (.error err), p)
    | ((totalValue, none), p) =>
      let apiRes : APIResource := { Name := groupResource.Resource, Namespaced := false }
      match (client.Resource apiRes "").List { LabelSelector := selector } with
      | .error err => (.ok (.error err), p)
      | .ok matchingObjectsRaw =>
        (metricsFor p totalValue groupResource metricName matchingObjectsRaw, p)

/-- Method `memoryProvider.GetNamespacedMetricByName`. -/
def GetNamespacedMetricByName (p : memoryProvider) (groupResource : GroupResource)
    (ns name metricName : String) : Except GoError MetricValue × memoryProvider :=
  match valueFor p groupResource metricName true with
  | ((_, some err), p) => (.error err, p)
  | ((value, none), p) => (metricFor p value groupResource ns name metricName, p)

/-- Method `memoryProvider.GetNamespacedMetricBySelector`. -/
def GetNamespacedMetricBySelector (p : memoryProvider) (groupResource : GroupResource)
    (ns : String) (selector : Selector) (metricName : String) :
    Except Panic (Except GoError MetricValueList) × memoryProvider :=
  match p.client.ClientForGroupVersionResource (groupResource.WithVersion "") with
  | .error _ =>
    (.ok (.error (.internalError (.errorf "unable to list matching resources"))), p)
  | .ok client =>
    match valueFor p groupResource metricName true with
    | ((_, some err), p) => (.ok (.error err), p)
    | ((totalValue, none), p) =>
      let apiRes : APIResource := { Name := groupResource.Resource, Namespaced := true }
      match (client.Resource apiRes ns).List { LabelSelector := selector } with
      | .error err => (.ok (.error err), p)
      | .ok matchingObjectsRaw =>
        (metricsFor p totalValue groupResource metricName matchingObjectsRaw, p)

/-- Method `memoryProvider.ListAllMetrics`. -/
def ListAllMetrics (_p : memoryProvider) : List MetricInfo :=
  [ { GroupResource := { Group := "", Resource := "pods" }
      Metric := "packets-per-second"
      Namespaced := true },
    { GroupResource := { Group := "", Resource := "services" }
      Metric := "connections-per-second"
      Namespaced := true },
    { GroupResource := { Group := "", Resource := "namespaces" }
      Metric := "queue-length"
      Namespaced := false } ]

/-- A run of `valueFor` calls, one after the other on the same provider: the
results in order, and the provider after the last call. -/
def valueForAll (m : memoryProvider) :
    List (GroupResource × String × Bool) → List (Int × Option GoError) × memoryProvider
  | [] => ([], m)
  | (groupResource, metricName, namespaced) :: rest =>
    let r := valueFor m groupResource metricName namespaced
    let rs := valueForAll r.2 rest
    (r.1 :: rs.1, rs.2)

/-- A call of one of the five exported methods, with its arguments. -/
inductive Query where
  | rootScopedByName (groupResource : GroupResource) (name metricName : String)
  | rootScopedBySelector (groupResource : GroupResource) (selector : Selector)
      (metricName : String)
  | namespacedByName (groupResource : GroupResource) (ns name metricName : String)
  | namespacedBySelector (groupResource : GroupResource) (ns : String) (selector : Selector)
      (metricName : String)
  | listAllMetrics

/-- The provider after the call. -/
def Query.run (p : memoryProvider) : Query → memoryProvider
  | .rootScopedByName groupResource name metricName =>
    (GetRootScopedMetricByName p groupResource name metricName).2
  | .rootScopedBySelector groupResource selector metricName =>
    (GetRootScopedMetricBySelector p groupResource selector metricName).2
  | .namespacedByName groupResource ns name metricName =>
    (GetNamespacedMetricByName p groupResource ns name metricName).2
  | .namespacedBySelector groupResource ns selector metricName =>
    (GetNamespacedMetricBySelector p groupResource ns selector metricName).2
  | .listAllMetrics => p

/-- The provider after a run of calls, one after the other. -/
def runAll (p : memoryProvider) : List Query → memoryProvider
  | [] => p
  | q :: rest => runAll (q.run p) rest

/-- A call of a method of the provider: one of the exported methods, or one of
the unexported `metricFor` and `metricsFor`. -/
inductive Operation where
  | query (q : Query)
  | metricFor (value : Int) (groupResource : GroupResource) (ns name metricName : String)
  | metricsFor (totalValue : Int) (groupResource : GroupResource) (metricName : String)
      (list : RuntimeObject)

/-- The provider after the operation.  The bodies of `metricFor` and
`metricsFor` read the `mapper` of the receiver and assign to none of its
fields, so the receiver after them is the receiver before. -/
def Operation.run (p : memoryProvider) : Operation → memoryProvider
  | .query q => q.run p
  | .metricFor _ _ _ _ _ => p
  | .metricsFor _ _ _ _ => p

/-! ## Concrete collaborators, for closed examples -/

/-- A resolver that knows the core resources `pods`, `services` and
`namespaces`, each also under its singular name. -/
def sampleMapper : RESTMapper where
  ResourceFor gvr :=
    if gvr.Group = "" ∧ (gvr.Resource = "pods" ∨ gvr.Resource = "pod") then
      .ok { Group := "", Version := "v1", Resource := "pods" }
    else if gvr.Group = "" ∧ (gvr.Resource = "services" ∨ gvr.Resource = "service") then
      .ok { Group := "", Version := "v1", Resource := "services" }
    else if gvr.Group = "" ∧ (gvr.Resource = "namespaces" ∨ gvr.Resource = "namespace") then
      .ok { Group := "", Version := "v1", Resource := "namespaces" }
    else .error (.collaborator "no matches for resource")
  KindFor gvr :=
    if gvr.Group = "" ∧ (gvr.Resource = "pods" ∨ gvr.Resource = "pod") then
      .ok { Group := "", Version := "v1", Kind := "Pod" }
    else if gvr.Group = "" ∧ (gvr.Resource = "services" ∨ gvr.Resource = "service") then
      .ok { Group := "", Version := "v1", Kind := "Service" }
    else if gvr.Group = "" ∧ (gvr.Resource = "namespaces" ∨ gvr.Resource = "namespace") then
      .ok { Group := "", Version := "v1", Kind := "Namespace" }
    else .error (.collaborator "no matches for resource")

/-- A client pool whose every list call returns the given result. -/
def poolReturning (result : Except GoError RuntimeObject) : ClientPool where
  ClientForGroupVersionResource _ := .ok { Resource := fun _ _ => { List := fun _ => result } }

/-- A client pool that cannot construct a client. -/
def brokenPool : ClientPool where
  ClientForGroupVersionResource _ := .error (.collaborator "no client for resource")

/-- The group-resource `pods` of the core group. -/
def pods : GroupResource := { Group := "", Resource := "pods" }

/-- The group-resource `pod`, an alias of `pods` for `sampleMapper`. -/
def podAlias : GroupResource := { Group := "", Resource := "pod" }

/-! ## Arithmetic of `int64` -/

theorem wrapInt64_eq_self {x : Int} (h : inInt64 x) : wrapInt64 x = x := by
  unfold inInt64 at h
  unfold wrapInt64
  omega

theorem wrapInt64_add_wrapInt64 (x y : Int) : wrapInt64 (wrapInt64 x + y) = wrapInt64 (x + y) := by
  unfold wrapInt64
  omega

theorem inInt64_wrapInt64 (x : Int) : inInt64 (wrapInt64 x) := by
  unfold inInt64 wrapInt64
  omega

/-! ## The counter store -/

theorem mapAssign_same (values : MetricInfo → Option Int) (k : MetricInfo) (v : Int) :
    mapAssign values k v k = some v := by
  simp [mapAssign]

theorem mapAssign_other (values : MetricInfo → Option Int) {k k' : MetricInfo} (v : Int)
    (h : k' ≠ k) : mapAssign values k v k' = values k' := by
  simp [mapAssign, h]

theorem valueFor_ok (m : memoryProvider) (groupResource : GroupResource) (metricName : String)
    (namespaced : Bool) (id : MetricInfo)
    (hnorm : MetricInfo.Normalized
      { GroupResource := groupResource, Metric := metricName, Namespaced := namespaced }
      m.mapper = .ok id) :
    valueFor m groupResource metricName namespaced =
      ((int64Add (mapIndex m.values id) 1, none),
       { m with values := mapAssign m.values id (int64Add (mapIndex m.values id) 1) }) := by
  simp only [valueFor, hnorm]

theorem valueFor_error (m : memoryProvider) (groupResource : GroupResource) (metricName : String)
    (namespaced : Bool) (err : GoError)
    (hnorm : MetricInfo.Normalized
      { GroupResource := groupResource, Metric := metricName, Namespaced := namespaced }
      m.mapper = .error err) :
    valueFor m groupResource metricName namespaced = ((0, some err), m) := by
  simp only [valueFor, hnorm]

theorem valueFor_mapper (m : memoryProvider) (groupResource : GroupResource)
    (metricName : String) (namespaced : Bool) :
    (valueFor m groupResource metricName namespaced).2.mapper = m.mapper := by
  cases h : MetricInfo.Normalized
    { GroupResource := groupResource, Metric := metricName, Namespaced := namespaced } m.mapper with
  | error err => rw [valueFor_error m _ _ _ err h]
  | ok id => rw [valueFor_ok m _ _ _ id h]

theorem valueFor_client (m : memoryProvider) (groupResource : GroupResource)
    (metricName : String) (namespaced : Bool) :
    (valueFor m groupResource metricName namespaced).2.client = m.client := by
  cases h : MetricInfo.Normalized
    { GroupResource := groupResource, Metric := metricName, Namespaced := namespaced } m.mapper with
  | error err => rw [valueFor_error m _ _ _ err h]
  | ok id => rw [valueFor_ok m _ _ _ id h]

theorem valueFor_mapIndex (m : memoryProvider) (groupResource : GroupResource)
    (metricName : String) (namespaced : Bool) (id : MetricInfo)
    (hnorm : MetricInfo.Normalized
      { GroupResource := groupResource, Metric := metricName, Namespaced := namespaced }
      m.mapper = .ok id) :
    mapIndex (valueFor m groupResource metricName namespaced).2.values id =
      int64Add (mapIndex m.values id) 1 := by
  rw [valueFor_ok m _ _ _ id hnorm]
  simp [mapIndex, mapAssign]

theorem valueForAll_same_id (id : MetricInfo) :
    ∀ (calls : List (GroupResource × String × Bool)) (m : memoryProvider),
      (∀ c ∈ calls, MetricInfo.Normalized
        { GroupResource := c.1, Metric := c.2.1, Namespaced := c.2.2 } m.mapper = .ok id) →
      (valueForAll m calls).1 =
        (List.range calls.length).map
          (fun (k : Nat) => (wrapInt64 (mapIndex m.values id + ((k : Int) + 1)), none)) := by
  intro calls
  induction calls with
  | nil => intro m _; rfl
  | cons c rest ih =>
    intro m hnorm
    obtain ⟨groupResource, metricName, namespaced⟩ := c
    have hc := hnorm (groupResource, metricName, namespaced) (List.mem_cons_self _ _)
    have hrest : ∀ c ∈ rest, MetricInfo.Normalized
        { GroupResource := c.1, Metric := c.2.1, Namespaced := c.2.2 }
        (valueFor m groupResource metricName namespaced).2.mapper = .ok id := by
      intro c hmem
      rw [valueFor_mapper]
      exact hnorm c (List.mem_cons_of_mem _ hmem)
    have htail := ih (valueFor m groupResource metricName namespaced).2 hrest
    rw [valueFor_mapIndex m _ _ _ id hc] at htail
    simp only [valueForAll, htail, List.length_cons, List.range_succ_eq_map, List.map_cons,
      List.map_map]
    rw [valueFor_ok m _ _ _ id hc]
    refine congrArg₂ List.cons ?_ ?_
    · simp [int64Add]
    · apply List.map_congr_left
      intro k _
      simp only [Function.comp, int64Add, wrapInt64_add_wrapInt64, Nat.succ_eq_add_one,
        Nat.cast_add, Nat.cast_one]
      congr 2
      ring

theorem valueFor_mapIndex_cases (m : memoryProvider) (groupResource : GroupResource)
    (metricName : String) (namespaced : Bool) (id : MetricInfo) :
    mapIndex (valueFor m groupResource metricName namespaced).2.values id =
        mapIndex m.values id ∨
      mapIndex (valueFor m groupResource metricName namespaced).2.values id =
        int64Add (mapIndex m.values id) 1 := by
  cases h : MetricInfo.Normalized
    { GroupResource := groupResource, Metric := metricName, Namespaced := namespaced } m.mapper with
  | error err => rw [valueFor_error m _ _ _ err h]; exact Or.inl rfl
  | ok id' =>
    by_cases hid : id = id'
    · subst hid
      exact Or.inr (valueFor_mapIndex m _ _ _ id h)
    · rw [valueFor_ok m _ _ _ id' h]
      left
      simp [mapIndex, mapAssign, hid]

/-! ## The queries -/

theorem GetRootScopedMetricByName_eq (p : memoryProvider) (groupResource : GroupResource)
    (name metricName : String) :
    GetRootScopedMetricByName p groupResource name metricName =
      (match (valueFor p groupResource metricName false).1.2 with
        | some err => .error err
        | none =>
          metricFor (valueFor p groupResource metricName false).2
            (valueFor p groupResource metricName false).1.1 groupResource "" name metricName,
       (valueFor p groupResource metricName false).2) := by
  unfold GetRootScopedMetricByName
  rcases valueFor p groupResource metricName false with ⟨⟨v, e⟩, p1⟩
  cases e <;> rfl

theorem GetNamespacedMetricByName_eq (p : memoryProvider) (groupResource : GroupResource)
    (ns name metricName : String) :
    GetNamespacedMetricByName p groupResource ns name metricName =
      (match (valueFor p groupResource metricName true).1.2 with
        | some err => .error err
        | none =>
          metricFor (valueFor p groupResource metricName true).2
            (valueFor p groupResource metricName true).1.1 groupResource ns name metricName,
       (valueFor p groupResource metricName true).2) := by
  unfold GetNamespacedMetricByName
  rcases valueFor p groupResource metricName true with ⟨⟨v, e⟩, p1⟩
  cases e <;> rfl

theorem GetRootScopedMetricBySelector_snd (p : memoryProvider) (groupResource : GroupResource)
    (selector : Selector) (metricName : String) :
    (GetRootScopedMetricBySelector p groupResource selector metricName).2 = p ∨
      (GetRootScopedMetricBySelector p groupResource selector metricName).2 =
        (valueFor p groupResource metricName false).2 := by
  unfold GetRootScopedMetricBySelector
  cases p.client.ClientForGroupVersionResource (groupResource.WithVersion "") with
  | error err => exact Or.inl rfl
  | ok client =>
    right
    rcases valueFor p groupResource metricName false with ⟨⟨v, e⟩, p1⟩
    cases e with
    | some err => rfl
    | none =>
      simp only
      cases (client.Resource { Name := groupResource.Resource, Namespaced := false } "").List
        { LabelSelector := selector } <;> rfl

theorem GetNamespacedMetricBySelector_snd (p : memoryProvider) (groupResource : GroupResource)
    (ns : String) (selector : Selector) (metricName : String) :
    (GetNamespacedMetricBySelector p groupResource ns selector metricName).2 = p ∨
      (GetNamespacedMetricBySelector p groupResource ns selector metricName).2 =
        (valueFor p groupResource metricName true).2 := by
  unfold GetNamespacedMetricBySelector
  cases p.client.ClientForGroupVersionResource (groupResource.WithVersion "") with
  | error err => exact Or.inl rfl
  | ok client =>
    right
    rcases valueFor p groupResource metricName true with ⟨⟨v, e⟩, p1⟩
    cases e with
    | some err => rfl
    | none =>
      simp only
      cases (client.Resource { Name := groupResource.Resource, Namespaced := true } ns).List
        { LabelSelector := selector } <;> rfl

theorem Query.run_cases (p : memoryProvider) (q : Query) :
    q.run p = p ∨ ∃ groupResource metricName namespaced,
      q.run p = (valueFor p groupResource metricName namespaced).2 := by
  cases q with
  | rootScopedByName groupResource name metricName =>
    right
    exact ⟨groupResource, metricName, false, by
      simp only [Query.run, GetRootScopedMetricByName_eq]⟩
  | rootScopedBySelector groupResource selector metricName =>
    rcases GetRootScopedMetricBySelector_snd p groupResource selector metricName with h | h
    · exact Or.inl h
    · exact Or.inr ⟨groupResource, metricName, false, h⟩
  | namespacedByName groupResource ns name metricName =>
    right
    exact ⟨groupResource, metricName, true, by
      simp only [Query.run, GetNamespacedMetricByName_eq]⟩
  | namespacedBySelector groupResource ns selector metricName =>
    rcases GetNamespacedMetricBySelector_snd p groupResource ns selector metricName with h | h
    · exact Or.inl h
    · exact Or.inr ⟨groupResource, metricName, true, h⟩
  | listAllMetrics => exact Or.inl rfl

theorem Query.run_mapper (p : memoryProvider) (q : Query) : (q.run p).mapper = p.mapper := by
  rcases Query.run_cases p q with h | ⟨groupResource, metricName, namespaced, h⟩
  · rw [h]
  · rw [h, valueFor_mapper]

theorem runAll_mapper : ∀ (qs : List Query) (p : memoryProvider),
    (runAll p qs).mapper = p.mapper := by
  intro qs
  induction qs with
  | nil => intro p; rfl
  | cons q rest ih => intro p; simp only [runAll, ih, Query.run_mapper]

theorem Query.run_mapIndex (p : memoryProvider) (q : Query) (id : MetricInfo) :
    mapIndex (q.run p).values id = mapIndex p.values id ∨
      mapIndex (q.run p).values id = int64Add (mapIndex p.values id) 1 := by
  rcases Query.run_cases p q with h | ⟨groupResource, metricName, namespaced, h⟩
  · rw [h]; exact Or.inl rfl
  · rw [h]; exact valueFor_mapIndex_cases p groupResource metricName namespaced id

theorem runAll_mapIndex_bounds (id : MetricInfo) : ∀ (qs : List Query) (p : memoryProvider),
    inInt64 (mapIndex p.values id) → mapIndex p.values id + (qs.length : Int) < 2 ^ 63 →
    mapIndex p.values id ≤ mapIndex (runAll p qs).values id ∧
      mapIndex (runAll p qs).values id ≤ mapIndex p.values id + (qs.length : Int) := by
  intro qs
  induction qs with
  | nil => intro p _ _; simp [runAll]
  | cons q rest ih =>
    intro p hin hlen
    simp only [List.length_cons, Nat.cast_add, Nat.cast_one] at hlen ⊢
    have hin' := hin
    unfold inInt64 at hin'
    rcases Query.run_mapIndex p q id with h | h
    · have := ih (q.run p) (by rw [h]; exact hin) (by rw [h]; omega)
      rw [h] at this
      simp only [runAll]
      omega
    · have hstep : int64Add (mapIndex p.values id) 1 = mapIndex p.values id + 1 :=
        wrapInt64_eq_self (by unfold inInt64; omega)
      rw [hstep] at h
      have := ih (q.run p) (by rw [h]; unfold inInt64; omega) (by rw [h]; omega)
      rw [h] at this
      simp only [runAll]
      omega

/-! ## Samples -/

theorem metricFor_ok (m : memoryProvider) (value : Int) (groupResource : GroupResource)
    (ns name metricName : String) (kind : GroupVersionKind)
    (hkind : m.mapper.KindFor (groupResource.WithVersion "") = .ok kind) :
    metricFor m value groupResource ns name metricName =
      .ok
        { DescribedObject :=
            { APIVersion := groupResource.Group ++ "/" ++ APIVersionInternal
              Kind := kind.Kind
              Name := name
              Namespace := ns }
          MetricName := metricName
          Value := NewMilliQuantity (int64Mul value 100) Format.DecimalSI } := by
  simp only [metricFor, hkind]

theorem metricFor_error (m : memoryProvider) (value : Int) (groupResource : GroupResource)
    (ns name metricName : String) (err : GoError)
    (hkind : m.mapper.KindFor (groupResource.WithVersion "") = .error err) :
    metricFor m value groupResource ns name metricName = .error err := by
  simp only [metricFor, hkind]

theorem metricFor_value (m : memoryProvider) (value : Int) (groupResource : GroupResource)
    (ns name metricName : String) (s : MetricValue)
    (h : metricFor m value groupResource ns name metricName = .ok s) :
    s.Value = NewMilliQuantity (int64Mul value 100) Format.DecimalSI := by
  cases hkind : m.mapper.KindFor (groupResource.WithVersion "") with
  | error err => rw [metricFor_error m _ _ _ _ _ err hkind] at h; cases h
  | ok kind =>
    rw [metricFor_ok m _ _ _ _ _ kind hkind] at h
    cases h
    rfl

theorem GetNamespacedMetricByName_value (p : memoryProvider) (groupResource : GroupResource)
    (ns name metricName : String) (s : MetricValue)
    (h : (GetNamespacedMetricByName p groupResource ns name metricName).1 = .ok s) :
    s.Value = NewMilliQuantity
      (int64Mul (valueFor p groupResource metricName true).1.1 100) Format.DecimalSI := by
  rw [GetNamespacedMetricByName_eq] at h
  simp only at h
  split at h
  · cases h
  · exact metricFor_value _ _ _ _ _ _ s h

theorem GetRootScopedMetricByName_value (p : memoryProvider) (groupResource : GroupResource)
    (name metricName : String) (s : MetricValue)
    (h : (GetRootScopedMetricByName p groupResource name metricName).1 = .ok s) :
    s.Value = NewMilliQuantity
      (int64Mul (valueFor p groupResource metricName false).1.1 100) Format.DecimalSI := by
  rw [GetRootScopedMetricByName_eq] at h
  simp only at h
  split at h
  · cases h
  · exact metricFor_value _ _ _ _ _ _ s h

theorem GetNamespacedMetricByName_ok (p : memoryProvider) (groupResource : GroupResource)
    (ns name metricName : String) (id : MetricInfo) (kind : GroupVersionKind)
    (hnorm : MetricInfo.Normalized
      { GroupResource := groupResource, Metric := metricName, Namespaced := true }
      p.mapper = .ok id)
    (hkind : p.mapper.KindFor (groupResource.WithVersion "") = .ok kind) :
    GetNamespacedMetricByName p groupResource ns name metricName =
      (.ok
        { DescribedObject :=
            { APIVersion := groupResource.Group ++ "/" ++ APIVersionInternal
              Kind := kind.Kind
              Name := name
              Namespace := ns }
          MetricName := metricName
          Value := NewMilliQuantity (int64Mul (int64Add (mapIndex p.values id) 1) 100)
            Format.DecimalSI },
       { p with values := mapAssign p.values id (int64Add (mapIndex p.values id) 1) }) := by
  rw [GetNamespacedMetricByName_eq, valueFor_ok p _ _ _ id hnorm]
  simp only [metricFor, hkind]

/-! ## Aggregation -/

theorem inInt64_tdiv {a : Int} (ha : inInt64 a) {n : Int} (hn : 1 ≤ n) :
    inInt64 (Int.tdiv a n) := by
  unfold inInt64 at *
  rcases Int.le_total 0 a with h | h
  · rw [Int.tdiv_eq_ediv h (by omega)]
    have h1 := Int.ediv_le_self n h
    have h2 := Int.ediv_nonneg h (show (0 : Int) ≤ n by omega)
    omega
  · have hna : 0 ≤ -a := by omega
    have heq : Int.tdiv a n = -((-a) / n) := by
      rw [← Int.tdiv_eq_ediv hna (by omega), Int.neg_tdiv, Int.neg_neg]
    have h1 := Int.ediv_le_self n hna
    have h2 := Int.ediv_nonneg hna (show (0 : Int) ≤ n by omega)
    omega

theorem int64Div_ok (a : Int) {n : Int} (hn : 1 ≤ n) :
    int64Div (wrapInt64 a) n = .ok (Int.tdiv (wrapInt64 a) n) := by
  unfold int64Div
  rw [if_neg (by omega), wrapInt64_eq_self (inInt64_tdiv (inInt64_wrapInt64 a) hn)]

theorem eachItem_ok (p : memoryProvider) (groupResource : GroupResource) (metricName : String)
    (kind : GroupVersionKind)
    (hkind : p.mapper.KindFor (groupResource.WithVersion "") = .ok kind) :
    ∀ (items : List ObjectMeta) (res : List MetricValue),
      eachItem (metricsForItem p groupResource metricName) items res =
        (none, res ++ items.map (fun objMeta =>
          { DescribedObject :=
              { APIVersion := groupResource.Group ++ "/" ++ APIVersionInternal
                Kind := kind.Kind
                Name := objMeta.Name
                Namespace := objMeta.Namespace }
            MetricName := metricName
            Value := NewMilliQuantity (int64Mul 0 100) Format.DecimalSI })) := by
  intro items
  induction items with
  | nil => intro res; simp [eachItem]
  | cons item rest ih =>
    intro res
    simp only [eachItem, metricsForItem, metricFor_ok p _ _ _ _ _ kind hkind, ih,
      List.map_cons, List.append_assoc, List.singleton_append]

theorem eachItem_error (p : memoryProvider) (groupResource : GroupResource)
    (metricName : String) (err : GoError)
    (hkind : p.mapper.KindFor (groupResource.WithVersion "") = .error err)
    (item : ObjectMeta) (rest : List ObjectMeta) (res : List MetricValue) :
    eachItem (metricsForItem p groupResource metricName) (item :: rest) res = (some err, res) := by
  simp only [eachItem, metricsForItem, metricFor_error p _ _ _ _ _ err hkind]

theorem setValues_ok (totalValue : Int) {len : Nat} (hlen : 1 ≤ len) :
    ∀ res : List MetricValue,
      setValues totalValue len res =
        .ok (res.map (fun v =>
          { v with Value :=
              NewMilliQuantity (Int.tdiv (int64Mul 100 totalValue) len) Format.DecimalSI })) := by
  intro res
  induction res with
  | nil => rfl
  | cons v rest ih =>
    have hdiv := int64Div_ok (100 * totalValue) (show (1 : Int) ≤ (len : Int) by omega)
    simp only [setValues, int64Mul, hdiv, ih, List.map_cons]

theorem setValues_total (totalValue : Int) (res : List MetricValue) :
    ∃ out, setValues totalValue res.length res = .ok out := by
  cases res with
  | nil => exact ⟨[], rfl⟩
  | cons v rest =>
    exact ⟨_, setValues_ok totalValue (by simp) (v :: rest)⟩

theorem metricsFor_list_nil (p : memoryProvider) (totalValue : Int)
    (groupResource : GroupResource) (metricName : String) :
    metricsFor p totalValue groupResource metricName (.list []) = .ok (.ok { Items := [] }) := by
  rfl

theorem metricsFor_list_ok (p : memoryProvider) (totalValue : Int)
    (groupResource : GroupResource) (metricName : String) (items : List ObjectMeta)
    (kind : GroupVersionKind) (hN : 1 ≤ items.length)
    (hkind : p.mapper.KindFor (groupResource.WithVersion "") = .ok kind) :
    metricsFor p totalValue groupResource metricName (.list items) =
      .ok (.ok { Items := items.map (fun objMeta =>
        { DescribedObject :=
            { APIVersion := groupResource.Group ++ "/" ++ APIVersionInternal
              Kind := kind.Kind
              Name := objMeta.Name
              Namespace := objMeta.Namespace }
          MetricName := metricName
          Value := NewMilliQuantity
            (Int.tdiv (int64Mul 100 totalValue) items.length) Format.DecimalSI }) }) := by
  simp only [metricsFor, IsListType, EachListItem, Bool.not_true, Bool.false_eq_true, if_false,
    eachItem_ok p groupResource metricName kind hkind, List.nil_append, List.length_map,
    setValues_ok totalValue hN, List.map_map]
  rfl

theorem metricsFor_list_error (p : memoryProvider) (totalValue : Int)
    (groupResource : GroupResource) (metricName : String) (err : GoError)
    (hkind : p.mapper.KindFor (groupResource.WithVersion "") = .error err)
    (item : ObjectMeta) (rest : List ObjectMeta) :
    metricsFor p totalValue groupResource metricName (.list (item :: rest)) =
      .ok (.error err) := by
  simp only [metricsFor, IsListType, EachListItem, Bool.not_true, Bool.false_eq_true, if_false,
    eachItem_error p groupResource metricName err hkind]

theorem metricsFor_not_list (p : memoryProvider) (totalValue : Int)
    (groupResource : GroupResource) (metricName : String) (list : RuntimeObject)
    (hlist : IsListType list = false) :
    metricsFor p totalValue groupResource metricName list =
      .ok (.error (.errorf "returned object was not a list")) := by
  simp [metricsFor, hlist]

/-! ## The selector queries -/

theorem GetRootScopedMetricBySelector_client_error (p : memoryProvider) (groupResource : GroupResource)
    (selector : Selector) (metricName : String) (err : GoError)
    (hclient : p.client.ClientForGroupVersionResource (groupResource.WithVersion "") =
      .error err) :
    GetRootScopedMetricBySelector p groupResource selector metricName =
      (.ok (.error (.internalError (.errorf "unable to list matching resources"))), p) := by
  simp only [GetRootScopedMetricBySelector, hclient]

theorem GetRootScopedMetricBySelector_norm_error (p : memoryProvider) (groupResource : GroupResource)
    (selector : Selector) (metricName : String) (client : DynamicClient) (err : GoError)
    (hclient : p.client.ClientForGroupVersionResource (groupResource.WithVersion "") =
      .ok client)
    (hnorm : MetricInfo.Normalized
      { GroupResource := groupResource, Metric := metricName, Namespaced := false }
      p.mapper = .error err) :
    GetRootScopedMetricBySelector p groupResource selector metricName = (.ok (.error err), p) := by
  simp only [GetRootScopedMetricBySelector, hclient, valueFor_error p _ _ _ err hnorm]

theorem GetRootScopedMetricBySelector_list_error (p : memoryProvider) (groupResource : GroupResource)
    (selector : Selector) (metricName : String) (client : DynamicClient) (id : MetricInfo)
    (err : GoError)
    (hclient : p.client.ClientForGroupVersionResource (groupResource.WithVersion "") =
      .ok client)
    (hnorm : MetricInfo.Normalized
      { GroupResource := groupResource, Metric := metricName, Namespaced := false }
      p.mapper = .ok id)
    (hlist : (client.Resource { Name := groupResource.Resource, Namespaced := false } "").List
      { LabelSelector := selector } = .error err) :
    GetRootScopedMetricBySelector p groupResource selector metricName =
      (.ok (.error err),
       { p with values := mapAssign p.values id (int64Add (mapIndex p.values id) 1) }) := by
  simp only [GetRootScopedMetricBySelector, hclient, valueFor_ok p _ _ _ id hnorm, hlist]

theorem GetRootScopedMetricBySelector_listed (p : memoryProvider) (groupResource : GroupResource)
    (selector : Selector) (metricName : String) (client : DynamicClient) (id : MetricInfo)
    (list : RuntimeObject)
    (hclient : p.client.ClientForGroupVersionResource (groupResource.WithVersion "") =
      .ok client)
    (hnorm : MetricInfo.Normalized
      { GroupResource := groupResource, Metric := metricName, Namespaced := false }
      p.mapper = .ok id)
    (hlist : (client.Resource { Name := groupResource.Resource, Namespaced := false } "").List
      { LabelSelector := selector } = .ok list) :
    GetRootScopedMetricBySelector p groupResource selector metricName =
      (metricsFor { p with values := mapAssign p.values id (int64Add (mapIndex p.values id) 1) }
         (int64Add (mapIndex p.values id) 1) groupResource metricName list,
       { p with values := mapAssign p.values id (int64Add (mapIndex p.values id) 1) }) := by
  simp only [GetRootScopedMetricBySelector, hclient, valueFor_ok p _ _ _ id hnorm, hlist]

theorem GetNamespacedMetricBySelector_client_error (p : memoryProvider) (groupResource : GroupResource) (ns : String)
    (selector : Selector) (metricName : String) (err : GoError)
    (hclient : p.client.ClientForGroupVersionResource (groupResource.WithVersion "") =
      .error err) :
    GetNamespacedMetricBySelector p groupResource ns selector metricName =
      (.ok (.error (.internalError (.errorf "unable to list matching resources"))), p) := by
  simp only [GetNamespacedMetricBySelector, hclient]

theorem GetNamespacedMetricBySelector_norm_error (p : memoryProvider) (groupResource : GroupResource) (ns : String)
    (selector : Selector) (metricName : String) (client : DynamicClient) (err : GoError)
    (hclient : p.client.ClientForGroupVersionResource (groupResource.WithVersion "") =
      .ok client)
    (hnorm : MetricInfo.Normalized
      { GroupResource := groupResource, Metric := metricName, Namespaced := true }
      p.mapper = .error err) :
    GetNamespacedMetricBySelector p groupResource ns selector metricName = (.ok (.error err), p) := by
  simp only [GetNamespacedMetricBySelector, hclient, valueFor_error p _ _ _ err hnorm]

theorem GetNamespacedMetricBySelector_list_error (p : memoryProvider) (groupResource : GroupResource) (ns : String)
    (selector : Selector) (metricName : String) (client : DynamicClient) (id : MetricInfo)
    (err : GoError)
    (hclient : p.client.ClientForGroupVersionResource (groupResource.WithVersion "") =
      .ok client)
    (hnorm : MetricInfo.Normalized
      { GroupResource := groupResource, Metric := metricName, Namespaced := true }
      p.mapper = .ok id)
    (hlist : (client.Resource { Name := groupResource.Resource, Namespaced := true } ns).List
      { LabelSelector := selector } = .error err) :
    GetNamespacedMetricBySelector p groupResource ns selector metricName =
      (.ok (.error err),
       { p with values := mapAssign p.values id (int64Add (mapIndex p.values id) 1) }) := by
  simp only [GetNamespacedMetricBySelector, hclient, valueFor_ok p _ _ _ id hnorm, hlist]

theorem GetNamespacedMetricBySelector_listed (p : memoryProvider) (groupResource : GroupResource) (ns : String)
    (selector : Selector) (metricName : String) (client : DynamicClient) (id : MetricInfo)
    (list : RuntimeObject)
    (hclient : p.client.ClientForGroupVersionResource (groupResource.WithVersion "") =
      .ok client)
    (hnorm : MetricInfo.Normalized
      { GroupResource := groupResource, Metric := metricName, Namespaced := true }
      p.mapper = .ok id)
    (hlist : (client.Resource { Name := groupResource.Resource, Namespaced := true } ns).List
      { LabelSelector := selector } = .ok list) :
    GetNamespacedMetricBySelector p groupResource ns selector metricName =
      (metricsFor { p with values := mapAssign p.values id (int64Add (mapIndex p.values id) 1) }
         (int64Add (mapIndex p.values id) 1) groupResource metricName list,
       { p with values := mapAssign p.values id (int64Add (mapIndex p.values id) 1) }) := by
  simp only [GetNamespacedMetricBySelector, hclient, valueFor_ok p _ _ _ id hnorm, hlist]

theorem metricsFor_total (p : memoryProvider) (totalValue : Int)
    (groupResource : GroupResource) (metricName : String) (list : RuntimeObject) :
    ∃ r, metricsFor p totalValue groupResource metricName list = .ok r := by
  unfold metricsFor
  split
  · exact ⟨_, rfl⟩
  · split
    · exact ⟨_, rfl⟩
    · next res _ =>
      obtain ⟨out, hout⟩ := setValues_total totalValue res
      rw [hout]
      exact ⟨_, rfl⟩

theorem GetRootScopedMetricBySelector_total (p : memoryProvider)
    (groupResource : GroupResource) (selector : Selector) (metricName : String) :
    ∃ r, (GetRootScopedMetricBySelector p groupResource selector metricName).1 = .ok r := by
  cases hclient : p.client.ClientForGroupVersionResource (groupResource.WithVersion "") with
  | error err =>
    rw [GetRootScopedMetricBySelector_client_error p _ _ _ err hclient]
    exact ⟨_, rfl⟩
  | ok client =>
    cases hnorm : MetricInfo.Normalized
        { GroupResource := groupResource, Metric := metricName, Namespaced := false }
        p.mapper with
    | error err =>
      rw [GetRootScopedMetricBySelector_norm_error p _ _ _ client err hclient hnorm]
      exact ⟨_, rfl⟩
    | ok id =>
      cases hlist : (client.Resource
          { Name := groupResource.Resource, Namespaced := false } "").List
          { LabelSelector := selector } with
      | error err =>
        rw [GetRootScopedMetricBySelector_list_error p _ _ _ client id err hclient hnorm hlist]
        exact ⟨_, rfl⟩
      | ok list =>
        rw [GetRootScopedMetricBySelector_listed p _ _ _ client id list hclient hnorm hlist]
        exact metricsFor_total _ _ _ _ _

theorem GetNamespacedMetricBySelector_total (p : memoryProvider)
    (groupResource : GroupResource) (ns : String) (selector : Selector) (metricName : String) :
    ∃ r, (GetNamespacedMetricBySelector p groupResource ns selector metricName).1 = .ok r := by
  cases hclient : p.client.ClientForGroupVersionResource (groupResource.WithVersion "") with
  | error err =>
    rw [GetNamespacedMetricBySelector_client_error p _ _ _ _ err hclient]
    exact ⟨_, rfl⟩
  | ok client =>
    cases hnorm : MetricInfo.Normalized
        { GroupResource := groupResource, Metric := metricName, Namespaced := true }
        p.mapper with
    | error err =>
      rw [GetNamespacedMetricBySelector_norm_error p _ _ _ _ client err hclient hnorm]
      exact ⟨_, rfl⟩
    | ok id =>
      cases hlist : (client.Resource
          { Name := groupResource.Resource, Namespaced := true } ns).List
          { LabelSelector := selector } with
      | error err =>
        rw [GetNamespacedMetricBySelector_list_error p _ _ _ _ client id err hclient hnorm hlist]
        exact ⟨_, rfl⟩
      | ok list =>
        rw [GetNamespacedMetricBySelector_listed p _ _ _ _ client id list hclient hnorm hlist]
        exact metricsFor_total _ _ _ _ _

/-! ## Frame of `valueFor` and of the queries -/

theorem Normalized_keeps (i id : MetricInfo) (mapper : RESTMapper)
    (h : i.Normalized mapper = .ok id) :
    id.Metric = i.Metric ∧ id.Namespaced = i.Namespaced := by
  unfold MetricInfo.Normalized at h
  split at h
  · cases h
  · cases h
    exact ⟨rfl, rfl⟩

theorem valueFor_values_other (m : memoryProvider) (groupResource : GroupResource)
    (metricName : String) (namespaced : Bool) (id id1 : MetricInfo)
    (hnorm : MetricInfo.Normalized
      { GroupResource := groupResource, Metric := metricName, Namespaced := namespaced }
      m.mapper = .ok id)
    (hne : id1 ≠ id) :
    (valueFor m groupResource metricName namespaced).2.values id1 = m.values id1 := by
  rw [valueFor_ok m _ _ _ id hnorm]
  exact mapAssign_other _ _ hne

theorem valueFor_values_cases (m : memoryProvider) (groupResource : GroupResource)
    (metricName : String) (namespaced : Bool) (id : MetricInfo) :
    (valueFor m groupResource metricName namespaced).2.values id = m.values id ∨
      (valueFor m groupResource metricName namespaced).2.values id =
        some (int64Add (mapIndex m.values id) 1) := by
  cases h : MetricInfo.Normalized
    { GroupResource := groupResource, Metric := metricName, Namespaced := namespaced } m.mapper with
  | error err => rw [valueFor_error m _ _ _ err h]; exact Or.inl rfl
  | ok id1 =>
    by_cases hid : id = id1
    · subst hid
      rw [valueFor_ok m _ _ _ id h]
      exact Or.inr (mapAssign_same _ _ _)
    · exact Or.inl (valueFor_values_other m _ _ _ id1 id h hid)

theorem valueFor_values_flag (m : memoryProvider) (groupResource : GroupResource)
    (metricName : String) (namespaced : Bool) (id : MetricInfo)
    (hflag : id.Namespaced ≠ namespaced) :
    (valueFor m groupResource metricName namespaced).2.values id = m.values id := by
  cases h : MetricInfo.Normalized
    { GroupResource := groupResource, Metric := metricName, Namespaced := namespaced } m.mapper with
  | error err => rw [valueFor_error m _ _ _ err h]
  | ok id1 =>
    apply valueFor_values_other m _ _ _ id1 id h
    intro heq
    apply hflag
    rw [heq]
    exact (Normalized_keeps _ _ _ h).2

theorem Operation.run_unchanged_or_valueFor (p : memoryProvider) (op : Operation) :
    op.run p = p ∨ ∃ groupResource metricName namespaced,
      op.run p = (valueFor p groupResource metricName namespaced).2 := by
  cases op with
  | query q => exact Query.run_cases p q
  | metricFor _ _ _ _ _ => exact Or.inl rfl
  | metricsFor _ _ _ _ => exact Or.inl rfl

theorem valueFor_later_greater (p : memoryProvider) (groupResource : GroupResource)
    (metricName : String) (namespaced : Bool) (id : MetricInfo) (qs : List Query)
    (hnorm : MetricInfo.Normalized
      { GroupResource := groupResource, Metric := metricName, Namespaced := namespaced }
      p.mapper = .ok id)
    (hlen : (valueFor p groupResource metricName namespaced).1.1 + (qs.length : Int) + 1 <
      2 ^ 63) :
    (valueFor p groupResource metricName namespaced).1.1 <
      (valueFor (runAll (valueFor p groupResource metricName namespaced).2 qs)
        groupResource metricName namespaced).1.1 := by
  have hfirst := valueFor_ok p groupResource metricName namespaced id hnorm
  have hc1 : mapIndex (valueFor p groupResource metricName namespaced).2.values id =
      (valueFor p groupResource metricName namespaced).1.1 := by
    rw [valueFor_mapIndex p _ _ _ id hnorm, hfirst]
  have hin : inInt64 (valueFor p groupResource metricName namespaced).1.1 := by
    rw [hfirst]
    exact inInt64_wrapInt64 _
  have hb := runAll_mapIndex_bounds id qs (valueFor p groupResource metricName namespaced).2
    (by rw [hc1]; exact hin) (by rw [hc1]; omega)
  rw [hc1] at hb
  have hnorm2 : MetricInfo.Normalized
      { GroupResource := groupResource, Metric := metricName, Namespaced := namespaced }
      (runAll (valueFor p groupResource metricName namespaced).2 qs).mapper = .ok id := by
    rw [runAll_mapper, valueFor_mapper]
    exact hnorm
  rw [valueFor_ok _ groupResource metricName namespaced id hnorm2]
  simp only
  unfold inInt64 at hin
  rw [show int64Add
        (mapIndex (runAll (valueFor p groupResource metricName namespaced).2 qs).values id) 1
      = mapIndex (runAll (valueFor p groupResource metricName namespaced).2 qs).values id + 1
      from wrapInt64_eq_self (by unfold inInt64; omega)]
  omega

/-! ## The resolver of the examples -/

theorem sampleMapper_answersCanonical : sampleMapper.AnswersCanonical := by
  intro groupResource gvr h
  simp only [sampleMapper] at h
  split_ifs at h
  · cases h
    exact ⟨{ Group := "", Version := "v1", Resource := "pods" }, by decide, rfl⟩
  · cases h
    exact ⟨{ Group := "", Version := "v1", Resource := "services" }, by decide, rfl⟩
  · cases h
    exact ⟨{ Group := "", Version := "v1", Resource := "namespaces" }, by decide, rfl⟩

/-- Claim C1.  When the resolver normalizes the identifier of a `valueFor` call
to `id`, the call returns no error and the `int64` successor of the value `v`
stored under `id` (`v` is 0 for an absent `id`), and afterwards the store maps
`id` to that number; the number is `v + 1` whenever `v + 1` is a value of
`int64`. -/
theorem valueFor_increments (m : memoryProvider) (groupResource : GroupResource)
    (metricName : String) (namespaced : Bool) (id : MetricInfo)
    (hnorm : MetricInfo.Normalized
      { GroupResource := groupResource, Metric := metricName, Namespaced := namespaced }
      m.mapper = .ok id) :
    (valueFor m groupResource metricName namespaced).1 =
        (int64Add ((m.values id).getD 0) 1, none) ∧
      (valueFor m groupResource metricName namespaced).2.values id =
        some (int64Add ((m.values id).getD 0) 1) ∧
      (inInt64 ((m.values id).getD 0 + 1) →
        (valueFor m groupResource metricName namespaced).1 = ((m.values id).getD 0 + 1, none) ∧
        (valueFor m groupResource metricName namespaced).2.values id =
          some ((m.values id).getD 0 + 1)) := by
  rw [valueFor_ok m _ _ _ id hnorm]
  have hstore : mapAssign m.values id (int64Add (mapIndex m.values id) 1) id =
      some (int64Add (mapIndex m.values id) 1) := mapAssign_same _ _ _
  refine ⟨rfl, hstore, ?_⟩
  intro hv
  have hadd : int64Add (mapIndex m.values id) 1 = (m.values id).getD 0 + 1 :=
    wrapInt64_eq_self hv
  exact ⟨by rw [hadd], by rw [← hadd]; exact hstore⟩

/-- An instance of `valueFor_increments`: on the provider whose store holds 41
for the normalized `pods` identifier, a call through the alias `pod` returns
42 and stores 42. -/
theorem valueFor_increments_witness :
    (valueFor
        { client := brokenPool, mapper := sampleMapper,
          values := fun k =>
            if k = { GroupResource := pods, Metric := "packets-per-second", Namespaced := true }
            then some 41 else none }
        podAlias "packets-per-second" true).1 = (42, none) ∧
      (valueFor
        { client := brokenPool, mapper := sampleMapper,
          values := fun k =>
            if k = { GroupResource := pods, Metric := "packets-per-second", Namespaced := true }
            then some 41 else none }
        podAlias "packets-per-second" true).2.values
          { GroupResource := pods, Metric := "packets-per-second", Namespaced := true } =
        some 42 :=
  (valueFor_increments
    { client := brokenPool, mapper := sampleMapper,
      values := fun k =>
        if k = { GroupResource := pods, Metric := "packets-per-second", Namespaced := true }
        then some 41 else none }
    podAlias "packets-per-second" true
    { GroupResource := pods, Metric := "packets-per-second", Namespaced := true }
    (by decide)).2.2 (by decide)

/-- Claim C2.  On a freshly constructed provider, a run of fewer than `2 ^ 63`
calls of `valueFor` whose arguments all normalize to the same identifier
returns, without error, the numbers 1, 2, 3, ... in this order: the k-th call
returns exactly k, whichever alias each call used. -/
theorem valueFor_shared_sequence (client : ClientPool) (mapper : RESTMapper) (id : MetricInfo)
    (calls : List (GroupResource × String × Bool))
    (hnorm : ∀ c ∈ calls, MetricInfo.Normalized
      { GroupResource := c.1, Metric := c.2.1, Namespaced := c.2.2 } mapper = .ok id)
    (hlen : (calls.length : Int) < 2 ^ 63) :
    (valueForAll (NewMemoryProvider client mapper) calls).1 =
      (List.range calls.length).map (fun (k : Nat) => ((k : Int) + 1, none)) := by
  rw [valueForAll_same_id id calls (NewMemoryProvider client mapper) hnorm]
  apply List.map_congr_left
  intro k hk
  have hk' : k < calls.length := List.mem_range.mp hk
  have hz : mapIndex (NewMemoryProvider client mapper).values id = 0 := rfl
  rw [hz, wrapInt64_eq_self]
  · simp
  · unfold inInt64
    omega

/-- An instance of `valueFor_shared_sequence`: three calls, the second through
the alias `pod`, return 1, 2 and 3. -/
theorem valueFor_shared_sequence_witness :
    (valueForAll (NewMemoryProvider brokenPool sampleMapper)
        [(pods, "packets-per-second", true), (podAlias, "packets-per-second", true),
         (pods, "packets-per-second", true)]).1 =
      [(1, none), (2, none), (3, none)] :=
  valueFor_shared_sequence brokenPool sampleMapper
    { GroupResource := pods, Metric := "packets-per-second", Namespaced := true }
    [(pods, "packets-per-second", true), (podAlias, "packets-per-second", true),
     (pods, "packets-per-second", true)]
    (by decide) (by decide)

/-- Claim C3.  When the resolver normalizes the identifier and resolves the
kind, the first `GetNamespacedMetricByName` call on a fresh provider returns a
sample of 100 thousandths and the next call with the same arguments one of
200.  Every successful by-name call, namespaced or root-scoped, returns the
`int64` product of 100 and the counter value that its `valueFor` produced,
which is 100 times that value whenever the product is a value of `int64`.  A
later call with the same arguments, after any run `qs` of other calls,
produces a strictly greater counter value, as long as the counter stays below
`2 ^ 63`; the same holds for `GetRootScopedMetricByName` when the resolver
normalizes the root-scoped identifier. -/
theorem GetNamespacedMetricByName_quantity (client : ClientPool) (mapper : RESTMapper)
    (groupResource : GroupResource) (ns name metricName : String) (id : MetricInfo)
    (kind : GroupVersionKind)
    (hnorm : MetricInfo.Normalized
      { GroupResource := groupResource, Metric := metricName, Namespaced := true }
      mapper = .ok id)
    (hkind : mapper.KindFor (groupResource.WithVersion "") = .ok kind) :
    (∃ s1 s2 : MetricValue,
      (GetNamespacedMetricByName (NewMemoryProvider client mapper)
        groupResource ns name metricName).1 = .ok s1 ∧
      s1.Value = NewMilliQuantity 100 Format.DecimalSI ∧
      (GetNamespacedMetricByName
        (GetNamespacedMetricByName (NewMemoryProvider client mapper)
          groupResource ns name metricName).2
        groupResource ns name metricName).1 = .ok s2 ∧
      s2.Value = NewMilliQuantity 200 Format.DecimalSI) ∧
    (∀ (p : memoryProvider) (gr : GroupResource) (ns1 name1 metric1 : String) (s : MetricValue),
      (GetNamespacedMetricByName p gr ns1 name1 metric1).1 = .ok s →
      s.Value.MilliValue = int64Mul (valueFor p gr metric1 true).1.1 100 ∧
      (inInt64 (100 * (valueFor p gr metric1 true).1.1) →
        s.Value.MilliValue = 100 * (valueFor p gr metric1 true).1.1)) ∧
    (∀ (p : memoryProvider) (gr : GroupResource) (name1 metric1 : String) (s : MetricValue),
      (GetRootScopedMetricByName p gr name1 metric1).1 = .ok s →
      s.Value.MilliValue = int64Mul (valueFor p gr metric1 false).1.1 100 ∧
      (inInt64 (100 * (valueFor p gr metric1 false).1.1) →
        s.Value.MilliValue = 100 * (valueFor p gr metric1 false).1.1)) ∧
    (∀ (p : memoryProvider) (qs : List Query), p.mapper = mapper →
      (valueFor p groupResource metricName true).1.1 + (qs.length : Int) + 1 < 2 ^ 63 →
      (valueFor p groupResource metricName true).1.1 <
        (valueFor
          (runAll (GetNamespacedMetricByName p groupResource ns name metricName).2 qs)
          groupResource metricName true).1.1) ∧
    (∀ idRoot : MetricInfo,
      MetricInfo.Normalized
        { GroupResource := groupResource, Metric := metricName, Namespaced := false }
        mapper = .ok idRoot →
      ∀ (p : memoryProvider) (qs : List Query), p.mapper = mapper →
        (valueFor p groupResource metricName false).1.1 + (qs.length : Int) + 1 < 2 ^ 63 →
        (valueFor p groupResource metricName false).1.1 <
          (valueFor
            (runAll (GetRootScopedMetricByName p groupResource name metricName).2 qs)
            groupResource metricName false).1.1) := by
  refine ⟨?_, ?_, ?_, ?_, ?_⟩
  · have h1 := GetNamespacedMetricByName_ok (NewMemoryProvider client mapper)
      groupResource ns name metricName id kind hnorm hkind
    have h2 := GetNamespacedMetricByName_ok
      { client := client, mapper := mapper,
        values := mapAssign (fun _ => none) id (int64Add (mapIndex (fun _ => none) id) 1) }
      groupResource ns name metricName id kind hnorm hkind
    have hv1 : int64Mul (int64Add (mapIndex (fun _ => none) id) 1) 100 = 100 := by
      simp only [mapIndex, Option.getD_none]
      decide
    have hv2 : int64Mul (int64Add (mapIndex (mapAssign (fun _ => none) id
        (int64Add (mapIndex (fun _ => none) id) 1)) id) 1) 100 = 200 := by
      simp only [mapIndex, mapAssign_same, Option.getD_some, Option.getD_none]
      decide
    rw [h1]
    refine ⟨_, _, rfl, ?_, congrArg Prod.fst h2, ?_⟩
    · exact congrArg (fun v => NewMilliQuantity v Format.DecimalSI) hv1
    · exact congrArg (fun v => NewMilliQuantity v Format.DecimalSI) hv2
  · intro p gr ns1 name1 metric1 s hs
    have hv := GetNamespacedMetricByName_value p gr ns1 name1 metric1 s hs
    rw [hv]
    refine ⟨rfl, fun hin => ?_⟩
    simp only [NewMilliQuantity, int64Mul]
    rw [wrapInt64_eq_self (by rw [mul_comm]; exact hin), mul_comm]
  · intro p gr name1 metric1 s hs
    have hv := GetRootScopedMetricByName_value p gr name1 metric1 s hs
    rw [hv]
    refine ⟨rfl, fun hin => ?_⟩
    simp only [NewMilliQuantity, int64Mul]
    rw [wrapInt64_eq_self (by rw [mul_comm]; exact hin), mul_comm]
  · intro p qs hp hlen
    subst hp
    have hfirst := valueFor_ok p groupResource metricName true id hnorm
    have hsnd : (GetNamespacedMetricByName p groupResource ns name metricName).2 =
        (valueFor p groupResource metricName true).2 := by
      rw [GetNamespacedMetricByName_eq]
    have hc1 : mapIndex (valueFor p groupResource metricName true).2.values id =
        (valueFor p groupResource metricName true).1.1 := by
      rw [valueFor_mapIndex p _ _ _ id hnorm, hfirst]
    have hin : inInt64 (valueFor p groupResource metricName true).1.1 := by
      rw [hfirst]
      exact inInt64_wrapInt64 _
    have hb := runAll_mapIndex_bounds id qs (valueFor p groupResource metricName true).2
      (by rw [hc1]; exact hin) (by rw [hc1]; omega)
    rw [hc1] at hb
    have hnorm2 : MetricInfo.Normalized
        { GroupResource := groupResource, Metric := metricName, Namespaced := true }
        (runAll (valueFor p groupResource metricName true).2 qs).mapper = .ok id := by
      rw [runAll_mapper, valueFor_mapper]
      exact hnorm
    rw [hsnd, valueFor_ok _ groupResource metricName true id hnorm2]
    simp only
    unfold inInt64 at hin
    rw [show int64Add (mapIndex (runAll (valueFor p groupResource metricName true).2 qs).values id) 1
        = mapIndex (runAll (valueFor p groupResource metricName true).2 qs).values id + 1 from
      wrapInt64_eq_self (by unfold inInt64; omega)]
    omega
  · intro idRoot hroot p qs hp hlen
    subst hp
    have hsnd : (GetRootScopedMetricByName p groupResource name metricName).2 =
        (valueFor p groupResource metricName false).2 := by
      rw [GetRootScopedMetricByName_eq]
    rw [hsnd]
    exact valueFor_later_greater p groupResource metricName false idRoot qs hroot hlen

/-- An instance of `GetNamespacedMetricByName_quantity`: with the resolver
`sampleMapper`, two calls for the pod `p1` of the namespace `default` return
100 and then 200 thousandths. -/
theorem GetNamespacedMetricByName_quantity_witness :
    ∃ s1 s2 : MetricValue,
      (GetNamespacedMetricByName (NewMemoryProvider brokenPool sampleMapper)
        pods "default" "p1" "packets-per-second").1 = .ok s1 ∧
      s1.Value = NewMilliQuantity 100 Format.DecimalSI ∧
      (GetNamespacedMetricByName
        (GetNamespacedMetricByName (NewMemoryProvider brokenPool sampleMapper)
          pods "default" "p1" "packets-per-second").2
        pods "default" "p1" "packets-per-second").1 = .ok s2 ∧
      s2.Value = NewMilliQuantity 200 Format.DecimalSI :=
  (GetNamespacedMetricByName_quantity brokenPool sampleMapper pods "default" "p1"
    "packets-per-second"
    { GroupResource := pods, Metric := "packets-per-second", Namespaced := true }
    { Group := "", Version := "v1", Kind := "Pod" } (by decide) (by decide)).1

/-- Claim C4.  For every total `T` and every list of `N ≥ 1` instances whose
kind the resolver resolves, `metricsFor` returns exactly `N` samples, and the
value of every sample is the same number of thousandths, the Go quotient
`100*T/N` (the `int64` product divided with truncation).  For `T ≥ 0` with
`100*T` below `2 ^ 63` this is the rounded-down quotient of `100*T` by `N`,
with a discarded remainder between `0` and `N - 1`. -/
theorem metricsFor_even_split (p : memoryProvider) (totalValue : Int)
    (groupResource : GroupResource) (metricName : String) (items : List ObjectMeta)
    (kind : GroupVersionKind) (hN : 1 ≤ items.length)
    (hkind : p.mapper.KindFor (groupResource.WithVersion "") = .ok kind) :
    ∃ res : List MetricValue,
      metricsFor p totalValue groupResource metricName (.list items) =
        .ok (.ok { Items := res }) ∧
      res.length = items.length ∧
      (∀ s ∈ res, s.Value =
        NewMilliQuantity (Int.tdiv (int64Mul 100 totalValue) items.length) Format.DecimalSI) ∧
      (0 ≤ totalValue → 100 * totalValue < 2 ^ 63 →
        Int.tdiv (int64Mul 100 totalValue) items.length =
          (100 * totalValue) / (items.length : Int) ∧
        0 ≤ 100 * totalValue -
          (items.length : Int) * ((100 * totalValue) / (items.length : Int)) ∧
        100 * totalValue -
          (items.length : Int) * ((100 * totalValue) / (items.length : Int)) <
            (items.length : Int)) := by
  refine ⟨_, metricsFor_list_ok p totalValue groupResource metricName items kind hN hkind,
    by rw [List.length_map], ?_, ?_⟩
  · intro s hs
    obtain ⟨objMeta, _, rfl⟩ := List.mem_map.mp hs
    rfl
  · intro hT hrep
    have hpos : (0 : Int) < (items.length : Int) := by omega
    have hprod : int64Mul 100 totalValue = 100 * totalValue :=
      wrapInt64_eq_self (by unfold inInt64; omega)
    have hle := Int.mul_ediv_self_le (x := 100 * totalValue) (Int.ne_of_gt hpos)
    have hlt := Int.lt_mul_ediv_self_add (x := 100 * totalValue) hpos
    refine ⟨?_, by omega, by omega⟩
    rw [hprod, Int.tdiv_eq_ediv (by omega) (by omega)]

/-- An instance of `metricsFor_even_split`: the total 7 over three pods gives
three samples of 233 thousandths each. -/
theorem metricsFor_even_split_witness :
    ∃ res : List MetricValue,
      metricsFor (NewMemoryProvider brokenPool sampleMapper) 7 pods "packets-per-second"
        (.list [{ Namespace := "default", Name := "p1" }, { Namespace := "default", Name := "p2" },
          { Namespace := "default", Name := "p3" }]) = .ok (.ok { Items := res }) ∧
      res.length = 3 ∧
      ∀ s ∈ res, s.Value = NewMilliQuantity 233 Format.DecimalSI := by
  obtain ⟨res, h1, h2, h3, _⟩ := metricsFor_even_split (NewMemoryProvider brokenPool sampleMapper)
    7 pods "packets-per-second"
    [{ Namespace := "default", Name := "p1" }, { Namespace := "default", Name := "p2" },
      { Namespace := "default", Name := "p3" }]
    { Group := "", Version := "v1", Kind := "Pod" } (by decide) (by decide)
  exact ⟨res, h1, h2, h3⟩

/-- Claim C5.  For a total `T ≥ 1` with `100*T` representable in `int64` and
`N ≥ 1` instances whose kind the resolver resolves, the sum of the `N`
quantities that `metricsFor` reports is at most `100*T` and at least
`100*T - 100*(N-1)`. -/
theorem metricsFor_sum_bounds (p : memoryProvider) (totalValue : Int)
    (groupResource : GroupResource) (metricName : String) (items : List ObjectMeta)
    (kind : GroupVersionKind) (hT : 1 ≤ totalValue) (hrep : 100 * totalValue < 2 ^ 63)
    (hN : 1 ≤ items.length)
    (hkind : p.mapper.KindFor (groupResource.WithVersion "") = .ok kind) :
    ∃ res : List MetricValue,
      metricsFor p totalValue groupResource metricName (.list items) =
        .ok (.ok { Items := res }) ∧
      res.length = items.length ∧
      (res.map (fun s => s.Value.MilliValue)).sum ≤ 100 * totalValue ∧
      100 * totalValue - 100 * ((items.length : Int) - 1) ≤
        (res.map (fun s => s.Value.MilliValue)).sum := by
  refine ⟨_, metricsFor_list_ok p totalValue groupResource metricName items kind hN hkind,
    by rw [List.length_map], ?_⟩
  have hpos : (0 : Int) < (items.length : Int) := by omega
  have hprod : int64Mul 100 totalValue = 100 * totalValue :=
    wrapInt64_eq_self (by unfold inInt64; omega)
  have hle := Int.mul_ediv_self_le (x := 100 * totalValue) (Int.ne_of_gt hpos)
  have hlt := Int.lt_mul_ediv_self_add (x := 100 * totalValue) hpos
  have hsum : ∀ (q : Int) (l : List ObjectMeta),
      (l.map (fun _ => q)).sum = (l.length : Int) * q := by
    intro q l
    induction l with
    | nil => simp
    | cons a l ih => simp only [List.map_cons, List.sum_cons, ih, List.length_cons]; push_cast; ring
  rw [List.map_map]
  have hmap : ∀ l : List ObjectMeta,
      l.map ((fun s : MetricValue => s.Value.MilliValue) ∘ fun objMeta : ObjectMeta =>
        { DescribedObject :=
            { APIVersion := groupResource.Group ++ "/" ++ APIVersionInternal
              Kind := kind.Kind
              Name := objMeta.Name
              Namespace := objMeta.Namespace }
          MetricName := metricName
          Value := NewMilliQuantity
            (Int.tdiv (int64Mul 100 totalValue) items.length) Format.DecimalSI }) =
      l.map (fun _ => Int.tdiv (int64Mul 100 totalValue) items.length) :=
    fun l => List.map_congr_left (fun _ _ => rfl)
  rw [hmap, hsum, hprod,
    Int.tdiv_eq_ediv (show (0 : Int) ≤ 100 * totalValue by omega) (Int.le_of_lt hpos)]
  constructor <;> omega

/-- An instance of `metricsFor_sum_bounds`: for the total 7 over three pods the
reported quantities sum to a number between 500 and 700. -/
theorem metricsFor_sum_bounds_witness :
    ∃ res : List MetricValue,
      metricsFor (NewMemoryProvider brokenPool sampleMapper) 7 pods "packets-per-second"
        (.list [{ Namespace := "default", Name := "p1" }, { Namespace := "default", Name := "p2" },
          { Namespace := "default", Name := "p3" }]) = .ok (.ok { Items := res }) ∧
      res.length = 3 ∧
      (res.map (fun s => s.Value.MilliValue)).sum ≤ 700 ∧
      500 ≤ (res.map (fun s => s.Value.MilliValue)).sum := by
  obtain ⟨res, h1, h2, h3, h4⟩ := metricsFor_sum_bounds
    (NewMemoryProvider brokenPool sampleMapper) 7 pods "packets-per-second"
    [{ Namespace := "default", Name := "p1" }, { Namespace := "default", Name := "p2" },
      { Namespace := "default", Name := "p3" }]
    { Group := "", Version := "v1", Kind := "Pod" } (by decide) (by decide) (by decide)
    (by decide)
  exact ⟨res, h1, h2, by simpa using h3, by simpa using h4⟩

/-- Claim C6, as stated, fails.  On the empty list `metricsFor` returns the
empty sample list and no error, and so do both selector queries when the
lister returns an empty list. -/
theorem metricsFor_empty_selection_counterexample :
    metricsFor (NewMemoryProvider (poolReturning (.ok (.list []))) sampleMapper) 1 pods
        "packets-per-second" (.list []) = .ok (.ok { Items := [] }) ∧
      (¬ ∃ err, metricsFor (NewMemoryProvider (poolReturning (.ok (.list []))) sampleMapper) 1
        pods "packets-per-second" (.list []) = .ok (.error err)) ∧
      (GetNamespacedMetricBySelector
        (NewMemoryProvider (poolReturning (.ok (.list []))) sampleMapper)
        pods "default" "app=web" "packets-per-second").1 = .ok (.ok { Items := [] }) ∧
      (GetRootScopedMetricBySelector
        (NewMemoryProvider (poolReturning (.ok (.list []))) sampleMapper)
        { Group := "", Resource := "namespaces" } "app=web" "queue-length").1 =
          .ok (.ok { Items := [] }) := by
  refine ⟨by decide, ?_, by decide, by decide⟩
  rintro ⟨err, h⟩
  rw [metricsFor_list_nil] at h
  cases h

/-- Claim C6, amended.  On the empty list `metricsFor` returns the empty sample
list and no error, for every provider, total, group-resource and metric name;
a selector query whose client is constructed, whose identifier normalizes and
whose list call returns the empty list returns the empty sample list and no
error. -/
theorem metricsFor_empty_selection (p : memoryProvider) (totalValue : Int)
    (groupResource : GroupResource) (metricName : String) :
    metricsFor p totalValue groupResource metricName (.list []) = .ok (.ok { Items := [] }) ∧
    (∀ (ns : String) (selector : Selector) (client : DynamicClient) (id : MetricInfo),
      p.client.ClientForGroupVersionResource (groupResource.WithVersion "") = .ok client →
      MetricInfo.Normalized
        { GroupResource := groupResource, Metric := metricName, Namespaced := true }
        p.mapper = .ok id →
      (client.Resource { Name := groupResource.Resource, Namespaced := true } ns).List
        { LabelSelector := selector } = .ok (.list []) →
      (GetNamespacedMetricBySelector p groupResource ns selector metricName).1 =
        .ok (.ok { Items := [] })) ∧
    (∀ (selector : Selector) (client : DynamicClient) (id : MetricInfo),
      p.client.ClientForGroupVersionResource (groupResource.WithVersion "") = .ok client →
      MetricInfo.Normalized
        { GroupResource := groupResource, Metric := metricName, Namespaced := false }
        p.mapper = .ok id →
      (client.Resource { Name := groupResource.Resource, Namespaced := false } "").List
        { LabelSelector := selector } = .ok (.list []) →
      (GetRootScopedMetricBySelector p groupResource selector metricName).1 =
        .ok (.ok { Items := [] })) := by
  refine ⟨metricsFor_list_nil _ _ _ _, ?_, ?_⟩
  · intro ns selector client id hclient hnorm hlist
    rw [GetNamespacedMetricBySelector_listed p _ _ _ _ client id _ hclient hnorm hlist]
    simp only [metricsFor_list_nil]
  · intro selector client id hclient hnorm hlist
    rw [GetRootScopedMetricBySelector_listed p _ _ _ client id _ hclient hnorm hlist]
    simp only [metricsFor_list_nil]

/-- An instance of `metricsFor_empty_selection`: a namespaced selector query
for pods, answered by a lister that returns the empty list. -/
theorem metricsFor_empty_selection_witness :
    (GetNamespacedMetricBySelector
      (NewMemoryProvider (poolReturning (.ok (.list []))) sampleMapper)
      pods "kube-system" "app=db" "packets-per-second").1 = .ok (.ok { Items := [] }) :=
  (metricsFor_empty_selection (NewMemoryProvider (poolReturning (.ok (.list []))) sampleMapper)
    0 pods "packets-per-second").2.1 "kube-system" "app=db"
    { Resource := fun _ _ => { List := fun _ => .ok (.list []) } }
    { GroupResource := pods, Metric := "packets-per-second", Namespaced := true }
    rfl (by decide) rfl

/-- Claim C7.  For every total and every object handed to `metricsFor`, the
empty list included, `metricsFor` ends without a run-time fault, and so do the
two selector queries; the only fault of the division is the zero divisor, so
the division by the instance count is never evaluated with a zero divisor. -/
theorem metricsFor_no_zero_divisor (p : memoryProvider) (totalValue : Int)
    (groupResource : GroupResource) (metricName : String) (list : RuntimeObject) :
    (∃ r, metricsFor p totalValue groupResource metricName list = .ok r) ∧
    (∀ (ns : String) (selector : Selector),
      ∃ r, (GetNamespacedMetricBySelector p groupResource ns selector metricName).1 = .ok r) ∧
    (∀ selector : Selector,
      ∃ r, (GetRootScopedMetricBySelector p groupResource selector metricName).1 = .ok r) ∧
    (∀ a b : Int, (∃ f, int64Div a b = .error f) ↔ b = 0) := by
  refine ⟨metricsFor_total _ _ _ _ _, fun ns selector => GetNamespacedMetricBySelector_total _ _ _ _ _,
    fun selector => GetRootScopedMetricBySelector_total _ _ _ _, ?_⟩
  intro a b
  unfold int64Div
  constructor
  · rintro ⟨f, hf⟩
    by_contra hb
    rw [if_neg hb] at hf
    cases hf
  · intro hb
    rw [if_pos hb]
    exact ⟨_, rfl⟩

/-- Claim C8 fails on the code.  When the client is constructed and the list
call itself fails, both selector queries return the error value of the list
call, not the internal error "unable to list matching resources"; only a
failure to construct the client is replaced by that internal error. -/
theorem selector_list_error_returned :
    (GetNamespacedMetricBySelector
      (NewMemoryProvider (poolReturning (.error (.collaborator "connection refused")))
        sampleMapper)
      pods "default" "app=web" "packets-per-second").1 =
        .ok (.error (.collaborator "connection refused")) ∧
    (GetRootScopedMetricBySelector
      (NewMemoryProvider (poolReturning (.error (.collaborator "connection refused")))
        sampleMapper)
      { Group := "", Resource := "namespaces" } "app=web" "queue-length").1 =
        .ok (.error (.collaborator "connection refused")) ∧
    (GetNamespacedMetricBySelector (NewMemoryProvider brokenPool sampleMapper)
      pods "default" "app=web" "packets-per-second").1 =
        .ok (.error (.internalError (.errorf "unable to list matching resources"))) ∧
    (GetRootScopedMetricBySelector (NewMemoryProvider brokenPool sampleMapper)
      { Group := "", Resource := "namespaces" } "app=web" "queue-length").1 =
        .ok (.error (.internalError (.errorf "unable to list matching resources"))) := by
  decide

/-- Claim C9.  If the object handed to `metricsFor` is not list-shaped, then
for every total, group-resource and metric name `metricsFor` returns no sample
list and the error "returned object was not a list"; a selector query whose
lister returns such an object returns that error. -/
theorem metricsFor_rejects_non_list (p : memoryProvider) (totalValue : Int)
    (groupResource : GroupResource) (metricName : String) (list : RuntimeObject)
    (hlist : IsListType list = false) :
    metricsFor p totalValue groupResource metricName list =
      .ok (.error (.errorf "returned object was not a list")) ∧
    (∀ (ns : String) (selector : Selector) (client : DynamicClient) (id : MetricInfo),
      p.client.ClientForGroupVersionResource (groupResource.WithVersion "") = .ok client →
      MetricInfo.Normalized
        { GroupResource := groupResource, Metric := metricName, Namespaced := true }
        p.mapper = .ok id →
      (client.Resource { Name := groupResource.Resource, Namespaced := true } ns).List
        { LabelSelector := selector } = .ok list →
      (GetNamespacedMetricBySelector p groupResource ns selector metricName).1 =
        .ok (.error (.errorf "returned object was not a list"))) ∧
    (∀ (selector : Selector) (client : DynamicClient) (id : MetricInfo),
      p.client.ClientForGroupVersionResource (groupResource.WithVersion "") = .ok client →
      MetricInfo.Normalized
        { GroupResource := groupResource, Metric := metricName, Namespaced := false }
        p.mapper = .ok id →
      (client.Resource { Name := groupResource.Resource, Namespaced := false } "").List
        { LabelSelector := selector } = .ok list →
      (GetRootScopedMetricBySelector p groupResource selector metricName).1 =
        .ok (.error (.errorf "returned object was not a list"))) := by
  refine ⟨metricsFor_not_list _ _ _ _ _ hlist, ?_, ?_⟩
  · intro ns selector client id hclient hnorm hl
    rw [GetNamespacedMetricBySelector_listed p _ _ _ _ client id _ hclient hnorm hl]
    simp only [metricsFor_not_list _ _ _ _ _ hlist]
  · intro selector client id hclient hnorm hl
    rw [GetRootScopedMetricBySelector_listed p _ _ _ client id _ hclient hnorm hl]
    simp only [metricsFor_not_list _ _ _ _ _ hlist]

/-- An instance of `metricsFor_rejects_non_list`: the lister answers a selector
query for pods with a single pod instead of a list. -/
theorem metricsFor_rejects_non_list_witness :
    metricsFor
        (NewMemoryProvider
          (poolReturning (.ok (.single { Namespace := "default", Name := "p1" }))) sampleMapper)
        5 pods "packets-per-second" (.single { Namespace := "default", Name := "p1" }) =
      .ok (.error (.errorf "returned object was not a list")) ∧
    (GetNamespacedMetricBySelector
        (NewMemoryProvider
          (poolReturning (.ok (.single { Namespace := "default", Name := "p1" }))) sampleMapper)
        pods "default" "app=web" "packets-per-second").1 =
      .ok (.error (.errorf "returned object was not a list")) :=
  ⟨(metricsFor_rejects_non_list
      (NewMemoryProvider
        (poolReturning (.ok (.single { Namespace := "default", Name := "p1" }))) sampleMapper)
      5 pods "packets-per-second" (.single { Namespace := "default", Name := "p1" }) rfl).1,
   (metricsFor_rejects_non_list
      (NewMemoryProvider
        (poolReturning (.ok (.single { Namespace := "default", Name := "p1" }))) sampleMapper)
      5 pods "packets-per-second" (.single { Namespace := "default", Name := "p1" }) rfl).2.1
      "default" "app=web"
      { Resource := fun _ _ =>
          { List := fun _ => .ok (.single { Namespace := "default", Name := "p1" }) } }
      { GroupResource := pods, Metric := "packets-per-second", Namespaced := true }
      rfl (by decide) rfl⟩

/-- Claim C10.  If the resolver cannot normalize the identifier, `valueFor`
returns 0 together with exactly the resolver's error and leaves the provider,
and so the counter store, as it was; `GetRootScopedMetricByName` and
`GetNamespacedMetricByName` then return no sample and that same error, and
leave the provider as it was. -/
theorem valueFor_resolver_error (m : memoryProvider) (groupResource : GroupResource)
    (metricName : String) (namespaced : Bool) (err : GoError)
    (hnorm : MetricInfo.Normalized
      { GroupResource := groupResource, Metric := metricName, Namespaced := namespaced }
      m.mapper = .error err) :
    valueFor m groupResource metricName namespaced = ((0, some err), m) ∧
    (namespaced = false → ∀ name : String,
      GetRootScopedMetricByName m groupResource name metricName = (.error err, m)) ∧
    (namespaced = true → ∀ ns name : String,
      GetNamespacedMetricByName m groupResource ns name metricName = (.error err, m)) := by
  refine ⟨valueFor_error m _ _ _ err hnorm, ?_, ?_⟩
  · intro hflag name
    subst hflag
    rw [GetRootScopedMetricByName_eq, valueFor_error m _ _ _ err hnorm]
  · intro hflag ns name
    subst hflag
    rw [GetNamespacedMetricByName_eq, valueFor_error m _ _ _ err hnorm]

/-- An instance of `valueFor_resolver_error`: the resource `widgets` is unknown
to `sampleMapper`; the store, which holds 5 for every identifier, is
unchanged. -/
theorem valueFor_resolver_error_witness :
    (valueFor { client := brokenPool, mapper := sampleMapper, values := fun _ => some 5 }
        { Group := "", Resource := "widgets" } "packets-per-second" true).1 =
      (0, some (.collaborator "no matches for resource")) ∧
    (GetNamespacedMetricByName
        { client := brokenPool, mapper := sampleMapper, values := fun _ => some 5 }
        { Group := "", Resource := "widgets" } "default" "w1" "packets-per-second").1 =
      .error (.collaborator "no matches for resource") ∧
    (GetNamespacedMetricByName
        { client := brokenPool, mapper := sampleMapper, values := fun _ => some 5 }
        { Group := "", Resource := "widgets" } "default" "w1" "packets-per-second").2.values =
      fun _ => some 5 := by
  have h := valueFor_resolver_error
    { client := brokenPool, mapper := sampleMapper, values := fun _ => some 5 }
    { Group := "", Resource := "widgets" } "packets-per-second" true
    (.collaborator "no matches for resource") (by decide)
  exact ⟨congrArg Prod.fst h.1, congrArg Prod.fst (h.2.2 rfl "default" "w1"),
    congrArg (fun r => r.2.values) (h.2.2 rfl "default" "w1")⟩

/-- Claim C11.  For every raw value, group-resource, namespace, name and metric
name: when the resolver returns a kind, `metricFor` returns a sample whose
described object has that kind, the given name and namespace and the API
version `groupResource.Group + "/" + APIVersionInternal`, whose metric name is
the given one and whose value is the `int64` product of the raw value and 100
in thousandths, which is `rawValue * 100` whenever that is a value of `int64`;
when the resolver fails, `metricFor` returns no sample and the resolver's
error. -/
theorem metricFor_sample (m : memoryProvider) (rawValue : Int) (groupResource : GroupResource)
    (ns name metricName : String) :
    (∀ kind : GroupVersionKind,
      m.mapper.KindFor (groupResource.WithVersion "") = .ok kind →
      ∃ s : MetricValue,
        metricFor m rawValue groupResource ns name metricName = .ok s ∧
        s.DescribedObject.Kind = kind.Kind ∧
        s.DescribedObject.Name = name ∧
        s.DescribedObject.Namespace = ns ∧
        s.DescribedObject.APIVersion = groupResource.Group ++ "/" ++ APIVersionInternal ∧
        s.MetricName = metricName ∧
        s.Value = NewMilliQuantity (int64Mul rawValue 100) Format.DecimalSI ∧
        (inInt64 (rawValue * 100) → s.Value = NewMilliQuantity (rawValue * 100) Format.DecimalSI)) ∧
    (∀ err : GoError,
      m.mapper.KindFor (groupResource.WithVersion "") = .error err →
      metricFor m rawValue groupResource ns name metricName = .error err) := by
  refine ⟨?_, fun err hkind => metricFor_error m _ _ _ _ _ err hkind⟩
  intro kind hkind
  refine ⟨_, metricFor_ok m rawValue groupResource ns name metricName kind hkind,
    rfl, rfl, rfl, rfl, rfl, rfl, ?_⟩
  intro hin
  exact congrArg (fun v => NewMilliQuantity v Format.DecimalSI) (wrapInt64_eq_self hin)

/-- An instance of `metricFor_sample`: the raw value 7 for the pod `p1` of the
namespace `default` gives a sample of kind `Pod` and 700 thousandths, and an
unknown resource gives the resolver's error. -/
theorem metricFor_sample_witness :
    (∃ s : MetricValue,
      metricFor (NewMemoryProvider brokenPool sampleMapper) 7 pods "default" "p1"
        "packets-per-second" = .ok s ∧
      s.DescribedObject.Kind = "Pod" ∧
      s.DescribedObject.Name = "p1" ∧
      s.DescribedObject.Namespace = "default" ∧
      s.DescribedObject.APIVersion = "/__internal" ∧
      s.MetricName = "packets-per-second" ∧
      s.Value = NewMilliQuantity 700 Format.DecimalSI) ∧
    metricFor (NewMemoryProvider brokenPool sampleMapper) 7
      { Group := "", Resource := "widgets" } "default" "w1" "packets-per-second" =
        .error (.collaborator "no matches for resource") := by
  obtain ⟨s, h1, h2, h3, h4, h5, h6, _, h8⟩ :=
    (metricFor_sample (NewMemoryProvider brokenPool sampleMapper) 7 pods "default" "p1"
      "packets-per-second").1 { Group := "", Version := "v1", Kind := "Pod" } (by decide)
  exact ⟨⟨s, h1, h2, h3, h4, h5, h6, h8 (by decide)⟩,
    (metricFor_sample (NewMemoryProvider brokenPool sampleMapper) 7
      { Group := "", Resource := "widgets" } "default" "w1" "packets-per-second").2
      (.collaborator "no matches for resource") (by decide)⟩

/-- Claim C12.  Whenever `metricsFor` succeeds on a list of instances, the
output has the length of the input, and its i-th sample describes the i-th
instance of the input -- it carries that instance's namespace and name -- so
the output is in the order of the input. -/
theorem metricsFor_keeps_order (p : memoryProvider) (totalValue : Int)
    (groupResource : GroupResource) (metricName : String) (items : List ObjectMeta)
    (res : List MetricValue)
    (h : metricsFor p totalValue groupResource metricName (.list items) =
      .ok (.ok { Items := res })) :
    res.length = items.length ∧
    res.map (fun s => (s.DescribedObject.Namespace, s.DescribedObject.Name)) =
      items.map (fun objMeta => (objMeta.Namespace, objMeta.Name)) ∧
    (∀ i : Nat,
      (res[i]?).map (fun s => (s.DescribedObject.Namespace, s.DescribedObject.Name)) =
        (items[i]?).map (fun objMeta => (objMeta.Namespace, objMeta.Name))) := by
  have hmap : res.map (fun s => (s.DescribedObject.Namespace, s.DescribedObject.Name)) =
      items.map (fun objMeta => (objMeta.Namespace, objMeta.Name)) := by
    cases items with
    | nil =>
      rw [metricsFor_list_nil] at h
      cases h
      rfl
    | cons item rest =>
      cases hkind : p.mapper.KindFor (groupResource.WithVersion "") with
      | error err =>
        rw [metricsFor_list_error p _ _ _ err hkind] at h
        cases h
      | ok kind =>
        rw [metricsFor_list_ok p _ _ _ (item :: rest) kind (by simp) hkind] at h
        cases h
        rw [List.map_map]
        exact List.map_congr_left (fun _ _ => rfl)
  refine ⟨?_, hmap, ?_⟩
  · have := congrArg List.length hmap
    simpa using this
  · intro i
    have := congrArg (fun l => l[i]?) hmap
    simpa using this

/-- An instance of `metricsFor_keeps_order`: three pods whose names are not in
alphabetical order are reported in the order given. -/
theorem metricsFor_keeps_order_witness :
    ∃ res : List MetricValue,
      metricsFor (NewMemoryProvider brokenPool sampleMapper) 7 pods "packets-per-second"
        (.list [{ Namespace := "default", Name := "zeta" }, { Namespace := "other", Name := "alpha" },
          { Namespace := "default", Name := "mid" }]) = .ok (.ok { Items := res }) ∧
      res.map (fun s => (s.DescribedObject.Namespace, s.DescribedObject.Name)) =
        [("default", "zeta"), ("other", "alpha"), ("default", "mid")] :=
  ⟨_, rfl,
    (metricsFor_keeps_order (NewMemoryProvider brokenPool sampleMapper) 7 pods
      "packets-per-second"
      [{ Namespace := "default", Name := "zeta" }, { Namespace := "other", Name := "alpha" },
        { Namespace := "default", Name := "mid" }] _ rfl).2.1⟩

/-- Claim C13.  In every provider state, and after any run of earlier calls,
`ListAllMetrics` returns exactly the entries pods / packets-per-second
(namespaced), services / connections-per-second (namespaced) and namespaces /
queue-length (not namespaced), all of the group "", in this order; the call
leaves the provider, and so the counter store, as it was. -/
theorem ListAllMetrics_static (p : memoryProvider) (qs : List Query) :
    ListAllMetrics p =
      [ { GroupResource := { Group := "", Resource := "pods" },
          Metric := "packets-per-second", Namespaced := true },
        { GroupResource := { Group := "", Resource := "services" },
          Metric := "connections-per-second", Namespaced := true },
        { GroupResource := { Group := "", Resource := "namespaces" },
          Metric := "queue-length", Namespaced := false } ] ∧
    ListAllMetrics (runAll p qs) = ListAllMetrics p ∧
    (ListAllMetrics p).length = 3 ∧
    Query.run p Query.listAllMetrics = p ∧
    (Query.run p Query.listAllMetrics).values = p.values :=
  ⟨rfl, rfl, rfl, rfl, rfl⟩

/-- Claim C14.  The counter store of a new provider is empty.  Every operation
(the four Get queries, `ListAllMetrics`, `metricFor`, `metricsFor`) either
leaves the provider as it was or leaves it as one `valueFor` call does; the
entry of each identifier is afterwards what it was or the `int64` successor of
its counter, so the counter is afterwards at least what it was, as long as its
successor is a value of `int64`.  `metricFor`, `metricsFor` and
`ListAllMetrics` leave the provider identical. -/
theorem counter_store_monotone (client : ClientPool) (mapper : RESTMapper)
    (p : memoryProvider) (op : Operation) (id : MetricInfo) :
    (NewMemoryProvider client mapper).values id = none ∧
    (op.run p = p ∨ ∃ groupResource metricName namespaced,
      op.run p = (valueFor p groupResource metricName namespaced).2) ∧
    ((op.run p).values id = p.values id ∨
      (op.run p).values id = some (int64Add (mapIndex p.values id) 1)) ∧
    (inInt64 (mapIndex p.values id + 1) →
      mapIndex p.values id ≤ mapIndex (op.run p).values id) ∧
    (∀ (value : Int) (groupResource : GroupResource) (ns name metricName : String),
      (Operation.metricFor value groupResource ns name metricName).run p = p) ∧
    (∀ (totalValue : Int) (groupResource : GroupResource) (metricName : String)
      (list : RuntimeObject),
      (Operation.metricsFor totalValue groupResource metricName list).run p = p) ∧
    (Operation.query Query.listAllMetrics).run p = p := by
  have hcases : (op.run p).values id = p.values id ∨
      (op.run p).values id = some (int64Add (mapIndex p.values id) 1) := by
    rcases Operation.run_unchanged_or_valueFor p op with
      h | ⟨groupResource, metricName, namespaced, h⟩
    · rw [h]; exact Or.inl rfl
    · rw [h]; exact valueFor_values_cases p groupResource metricName namespaced id
  refine ⟨rfl, Operation.run_unchanged_or_valueFor p op, hcases, ?_, fun _ _ _ _ _ => rfl,
    fun _ _ _ _ => rfl, rfl⟩
  intro hin
  rcases hcases with h | h
  · simp only [mapIndex, h, le_refl]
  · have hadd : int64Add (mapIndex p.values id) 1 = mapIndex p.values id + 1 :=
      wrapInt64_eq_self hin
    rw [hadd] at h
    have hafter : mapIndex (op.run p).values id = mapIndex p.values id + 1 := by
      simp only [mapIndex, h, Option.getD_some]
    rw [hafter]
    omega

/-- An instance of `counter_store_monotone`: on a new provider a by-name query
for pods through the alias `pod` moves the counter of the normalized
identifier from 0 to 1. -/
theorem counter_store_monotone_witness :
    mapIndex (NewMemoryProvider brokenPool sampleMapper).values
        { GroupResource := pods, Metric := "packets-per-second", Namespaced := true } ≤
      mapIndex
        ((Operation.query
          (Query.namespacedByName podAlias "default" "p1" "packets-per-second")).run
          (NewMemoryProvider brokenPool sampleMapper)).values
        { GroupResource := pods, Metric := "packets-per-second", Namespaced := true } :=
  (counter_store_monotone brokenPool sampleMapper (NewMemoryProvider brokenPool sampleMapper)
    (Operation.query (Query.namespacedByName podAlias "default" "p1" "packets-per-second"))
    { GroupResource := pods, Metric := "packets-per-second", Namespaced := true }).2.2.2.1
    (by decide)

/-- Claim C15.  A successful `valueFor` call changes the entry of the normalized
identifier only: every other identifier has afterwards the stored value, or
the absence, it had before.  Normalization keeps the metric name and the
namespaced flag, so the identifier with the opposite flag is among the
untouched ones, and a root-scoped query leaves every namespaced identifier's
entry as it was, and a namespaced query every root-scoped identifier's. -/
theorem valueFor_frame (m : memoryProvider) (groupResource : GroupResource)
    (metricName : String) (namespaced : Bool) (id : MetricInfo)
    (hnorm : MetricInfo.Normalized
      { GroupResource := groupResource, Metric := metricName, Namespaced := namespaced }
      m.mapper = .ok id) :
    (∀ id1 : MetricInfo, id1 ≠ id →
      (valueFor m groupResource metricName namespaced).2.values id1 = m.values id1) ∧
    id.Metric = metricName ∧ id.Namespaced = namespaced ∧
    (valueFor m groupResource metricName namespaced).2.values
        { id with Namespaced := !namespaced } =
      m.values { id with Namespaced := !namespaced } ∧
    (∀ (id1 : MetricInfo) (name : String) (selector : Selector), id1.Namespaced = true →
      (GetRootScopedMetricByName m groupResource name metricName).2.values id1 = m.values id1 ∧
      (GetRootScopedMetricBySelector m groupResource selector metricName).2.values id1 =
        m.values id1) ∧
    (∀ (id1 : MetricInfo) (ns name : String) (selector : Selector), id1.Namespaced = false →
      (GetNamespacedMetricByName m groupResource ns name metricName).2.values id1 =
        m.values id1 ∧
      (GetNamespacedMetricBySelector m groupResource ns selector metricName).2.values id1 =
        m.values id1) := by
  have hkeep := Normalized_keeps _ _ _ hnorm
  refine ⟨fun id1 hne => valueFor_values_other m _ _ _ id id1 hnorm hne, hkeep.1, hkeep.2,
    ?_, ?_, ?_⟩
  · apply valueFor_values_flag
    simp
  · intro id1 name selector hflag
    have hv := valueFor_values_flag m groupResource metricName false id1 (by simp [hflag])
    constructor
    · rw [GetRootScopedMetricByName_eq]
      exact hv
    · rcases GetRootScopedMetricBySelector_snd m groupResource selector metricName with h | h
      · rw [h]
      · rw [h]; exact hv
  · intro id1 ns name selector hflag
    have hv := valueFor_values_flag m groupResource metricName true id1 (by simp [hflag])
    constructor
    · rw [GetNamespacedMetricByName_eq]
      exact hv
    · rcases GetNamespacedMetricBySelector_snd m groupResource ns selector metricName with h | h
      · rw [h]
      · rw [h]; exact hv

/-- An instance of `valueFor_frame`: on the provider whose store holds 5 for
every identifier, a root-scoped call for pods leaves the namespaced pods
counter at 5 and moves the root-scoped one to 6. -/
theorem valueFor_frame_witness :
    (valueFor { client := brokenPool, mapper := sampleMapper, values := fun _ => some 5 }
        podAlias "packets-per-second" false).2.values
        { GroupResource := pods, Metric := "packets-per-second", Namespaced := true } = some 5 ∧
    (valueFor { client := brokenPool, mapper := sampleMapper, values := fun _ => some 5 }
        podAlias "packets-per-second" false).2.values
        { GroupResource := pods, Metric := "packets-per-second", Namespaced := false } = some 6 :=
  ⟨(valueFor_frame { client := brokenPool, mapper := sampleMapper, values := fun _ => some 5 }
      podAlias "packets-per-second" false
      { GroupResource := pods, Metric := "packets-per-second", Namespaced := false }
      (by decide)).2.2.2.1,
    by decide⟩

/-- Claim C16.  For a resolver that answers canonical forms, normalization is
idempotent: for every identifier on which normalization succeeds with result
`id1`, normalizing `id1` again succeeds and returns `id1` itself; so `valueFor`
called with the components of `id1` returns the `int64` successor of the
counter stored under `id1` (the counter plus 1 when that is a value of
`int64`), stores it under `id1` and leaves every other entry as it was. -/
theorem Normalized_idempotent (mapper : RESTMapper) (hcanon : mapper.AnswersCanonical)
    (i id1 : MetricInfo) (h : i.Normalized mapper = .ok id1) :
    id1.Normalized mapper = .ok id1 ∧
    (∀ m : memoryProvider, m.mapper = mapper →
      (valueFor m id1.GroupResource id1.Metric id1.Namespaced).1 =
        (int64Add (mapIndex m.values id1) 1, none) ∧
      (valueFor m id1.GroupResource id1.Metric id1.Namespaced).2.values id1 =
        some (int64Add (mapIndex m.values id1) 1) ∧
      (inInt64 (mapIndex m.values id1 + 1) →
        (valueFor m id1.GroupResource id1.Metric id1.Namespaced).1 =
          (mapIndex m.values id1 + 1, none) ∧
        (valueFor m id1.GroupResource id1.Metric id1.Namespaced).2.values id1 =
          some (mapIndex m.values id1 + 1)) ∧
      ∀ id2 : MetricInfo, id2 ≠ id1 →
        (valueFor m id1.GroupResource id1.Metric id1.Namespaced).2.values id2 =
          m.values id2) := by
  have hid : id1.Normalized mapper = .ok id1 := by
    unfold MetricInfo.Normalized at h
    split at h
    · cases h
    · next gvr hgvr =>
      cases h
      obtain ⟨gvr1, hgvr1, hsame⟩ := hcanon i.GroupResource gvr hgvr
      unfold MetricInfo.Normalized
      simp only [hgvr1, hsame]
  refine ⟨hid, ?_⟩
  intro m hm
  subst hm
  have hnorm : MetricInfo.Normalized
      { GroupResource := id1.GroupResource, Metric := id1.Metric,
        Namespaced := id1.Namespaced } m.mapper = .ok id1 := hid
  rw [valueFor_ok m _ _ _ id1 hnorm]
  refine ⟨rfl, mapAssign_same _ _ _, fun hin => ?_, fun id2 hne => mapAssign_other _ _ hne⟩
  have hadd : int64Add (mapIndex m.values id1) 1 = mapIndex m.values id1 + 1 :=
    wrapInt64_eq_self hin
  exact ⟨by rw [hadd], by rw [← hadd]; exact mapAssign_same _ _ _⟩

/-- An instance of `Normalized_idempotent`: `sampleMapper` answers canonical
forms; the identifier reached from the alias `pod` is the identifier of `pods`,
normalizing it again returns it, and on a new provider `valueFor` called with
it returns 1. -/
theorem Normalized_idempotent_witness :
    MetricInfo.Normalized
        { GroupResource := pods, Metric := "packets-per-second", Namespaced := true }
        sampleMapper =
      .ok { GroupResource := pods, Metric := "packets-per-second", Namespaced := true } ∧
    (valueFor (NewMemoryProvider brokenPool sampleMapper) pods "packets-per-second" true).1 =
      (1, none) := by
  have h := Normalized_idempotent sampleMapper sampleMapper_answersCanonical
    { GroupResource := podAlias, Metric := "packets-per-second", Namespaced := true }
    { GroupResource := pods, Metric := "packets-per-second", Namespaced := true }
    (by decide)
  exact ⟨h.1, ((h.2 (NewMemoryProvider brokenPool sampleMapper) rfl).2.2.1 (by decide)).1⟩

/-- Claim C17.  The provider that a query leaves behind does not depend on the
instance name, the namespace or the selector: after a by-name query it is the
provider after the `valueFor` call for the group-resource, the metric name and
the flag of the query, and so it is after a by-selector query whose client is
constructed.  On a new provider whose resolver normalizes the identifier and
resolves the kind, `GetNamespacedMetricByName` for one namespace and name and
then for another returns 100 and then 200 thousandths, and a following
`GetNamespacedMetricBySelector` hands the total 3 to `metricsFor`, which gives
each of `N ≥ 1` listed instances the quotient of 300 by `N`. -/
theorem counter_slot_shared (client : ClientPool) (mapper : RESTMapper)
    (groupResource : GroupResource) (metricName : String) (id : MetricInfo)
    (kind : GroupVersionKind)
    (hnorm : MetricInfo.Normalized
      { GroupResource := groupResource, Metric := metricName, Namespaced := true }
      mapper = .ok id)
    (hkind : mapper.KindFor (groupResource.WithVersion "") = .ok kind) :
    (∀ (p : memoryProvider) (ns name : String),
      (GetNamespacedMetricByName p groupResource ns name metricName).2 =
        (valueFor p groupResource metricName true).2) ∧
    (∀ (p : memoryProvider) (name : String),
      (GetRootScopedMetricByName p groupResource name metricName).2 =
        (valueFor p groupResource metricName false).2) ∧
    (∀ (p : memoryProvider) (ns : String) (selector : Selector) (dc : DynamicClient),
      p.client.ClientForGroupVersionResource (groupResource.WithVersion "") = .ok dc →
      (GetNamespacedMetricBySelector p groupResource ns selector metricName).2 =
        (valueFor p groupResource metricName true).2) ∧
    (∀ (p : memoryProvider) (selector : Selector) (dc : DynamicClient),
      p.client.ClientForGroupVersionResource (groupResource.WithVersion "") = .ok dc →
      (GetRootScopedMetricBySelector p groupResource selector metricName).2 =
        (valueFor p groupResource metricName false).2) ∧
    (∀ ns1 name1 ns2 name2 : String, ∃ s1 s2 : MetricValue,
      (GetNamespacedMetricByName (NewMemoryProvider client mapper)
        groupResource ns1 name1 metricName).1 = .ok s1 ∧
      s1.Value = NewMilliQuantity 100 Format.DecimalSI ∧
      (GetNamespacedMetricByName
        (GetNamespacedMetricByName (NewMemoryProvider client mapper)
          groupResource ns1 name1 metricName).2
        groupResource ns2 name2 metricName).1 = .ok s2 ∧
      s2.Value = NewMilliQuantity 200 Format.DecimalSI ∧
      ∀ (ns3 : String) (selector : Selector) (dc : DynamicClient) (list : RuntimeObject),
        client.ClientForGroupVersionResource (groupResource.WithVersion "") = .ok dc →
        (dc.Resource { Name := groupResource.Resource, Namespaced := true } ns3).List
          { LabelSelector := selector } = .ok list →
        (GetNamespacedMetricBySelector
          (GetNamespacedMetricByName
            (GetNamespacedMetricByName (NewMemoryProvider client mapper)
              groupResource ns1 name1 metricName).2
            groupResource ns2 name2 metricName).2
          groupResource ns3 selector metricName).1 =
          metricsFor
            (GetNamespacedMetricByName
              (GetNamespacedMetricByName (NewMemoryProvider client mapper)
                groupResource ns1 name1 metricName).2
              groupResource ns2 name2 metricName).2
            3 groupResource metricName list ∧
        ∀ items : List ObjectMeta, list = .list items → 1 ≤ items.length →
          ∃ res : List MetricValue,
            (GetNamespacedMetricBySelector
              (GetNamespacedMetricByName
                (GetNamespacedMetricByName (NewMemoryProvider client mapper)
                  groupResource ns1 name1 metricName).2
                groupResource ns2 name2 metricName).2
              groupResource ns3 selector metricName).1 = .ok (.ok { Items := res }) ∧
            res.length = items.length ∧
            ∀ s ∈ res,
              s.Value = NewMilliQuantity (Int.tdiv 300 items.length) Format.DecimalSI) := by
  refine ⟨?_, ?_, ?_, ?_, ?_⟩
  · intro p ns name
    rw [GetNamespacedMetricByName_eq]
  · intro p name
    rw [GetRootScopedMetricByName_eq]
  · intro p ns selector dc hclient
    cases hn : MetricInfo.Normalized
        { GroupResource := groupResource, Metric := metricName, Namespaced := true }
        p.mapper with
    | error err =>
      rw [GetNamespacedMetricBySelector_norm_error p _ _ _ _ dc err hclient hn,
        valueFor_error p _ _ _ err hn]
    | ok id1 =>
      rw [valueFor_ok p _ _ _ id1 hn]
      cases hl : (dc.Resource { Name := groupResource.Resource, Namespaced := true } ns).List
          { LabelSelector := selector } with
      | error err =>
        rw [GetNamespacedMetricBySelector_list_error p _ _ _ _ dc id1 err hclient hn hl]
      | ok list =>
        rw [GetNamespacedMetricBySelector_listed p _ _ _ _ dc id1 list hclient hn hl]
  · intro p selector dc hclient
    cases hn : MetricInfo.Normalized
        { GroupResource := groupResource, Metric := metricName, Namespaced := false }
        p.mapper with
    | error err =>
      rw [GetRootScopedMetricBySelector_norm_error p _ _ _ dc err hclient hn,
        valueFor_error p _ _ _ err hn]
    | ok id1 =>
      rw [valueFor_ok p _ _ _ id1 hn]
      cases hl : (dc.Resource { Name := groupResource.Resource, Namespaced := false } "").List
          { LabelSelector := selector } with
      | error err =>
        rw [GetRootScopedMetricBySelector_list_error p _ _ _ dc id1 err hclient hn hl]
      | ok list =>
        rw [GetRootScopedMetricBySelector_listed p _ _ _ dc id1 list hclient hn hl]
  · intro ns1 name1 ns2 name2
    have h1 := GetNamespacedMetricByName_ok (NewMemoryProvider client mapper)
      groupResource ns1 name1 metricName id kind hnorm hkind
    have h2 := GetNamespacedMetricByName_ok
      { client := client, mapper := mapper,
        values := mapAssign (fun _ => none) id (int64Add (mapIndex (fun _ => none) id) 1) }
      groupResource ns2 name2 metricName id kind hnorm hkind
    have hv1 : int64Mul (int64Add (mapIndex (fun _ => none) id) 1) 100 = 100 := by
      simp only [mapIndex, Option.getD_none]
      decide
    have hv2 : int64Mul (int64Add (mapIndex (mapAssign (fun _ => none) id
        (int64Add (mapIndex (fun _ => none) id) 1)) id) 1) 100 = 200 := by
      simp only [mapIndex, mapAssign_same, Option.getD_some, Option.getD_none]
      decide
    have hv3 : int64Add (mapIndex (mapAssign (mapAssign (fun _ => none) id
        (int64Add (mapIndex (fun _ => none) id) 1)) id
        (int64Add (mapIndex (mapAssign (fun _ => none) id
          (int64Add (mapIndex (fun _ => none) id) 1)) id) 1)) id) 1 = 3 := by
      simp only [mapIndex, mapAssign_same, Option.getD_some, Option.getD_none]
      decide
    rw [h1]
    refine ⟨_, _, rfl, congrArg (fun v => NewMilliQuantity v Format.DecimalSI) hv1,
      congrArg Prod.fst h2, congrArg (fun v => NewMilliQuantity v Format.DecimalSI) hv2, ?_⟩
    intro ns3 selector dc list hclient hl
    simp only [NewMemoryProvider] at h2 ⊢
    rw [h2]
    simp only
    have h3 := GetNamespacedMetricBySelector_listed
      { client := client, mapper := mapper,
        values := mapAssign (mapAssign (fun _ => none) id
          (int64Add (mapIndex (fun _ => none) id) 1)) id
          (int64Add (mapIndex (mapAssign (fun _ => none) id
            (int64Add (mapIndex (fun _ => none) id) 1)) id) 1) }
      groupResource ns3 selector metricName dc id list hclient hnorm hl
    simp only [hv3] at h3
    have hfirst := congrArg Prod.fst h3
    simp only at hfirst
    refine ⟨hfirst.trans rfl, ?_⟩
    intro items hitems hN
    subst hitems
    rw [hfirst, metricsFor_list_ok _ 3 groupResource metricName items kind hN hkind]
    refine ⟨_, rfl, by rw [List.length_map], ?_⟩
    intro s hs
    obtain ⟨objMeta, _, rfl⟩ := List.mem_map.mp hs
    have h300 : int64Mul 100 3 = 300 := by decide
    simp only [h300]

/-- An instance of `counter_slot_shared`: with `sampleMapper`, the pod `p1` of
`default` gets 100, the pod `p2` of `other` gets 200, and a selector query that
lists two pods then gives each of them 150. -/
theorem counter_slot_shared_witness :
    ∃ s1 s2 : MetricValue,
      (GetNamespacedMetricByName
        (NewMemoryProvider
          (poolReturning (.ok (.list [{ Namespace := "default", Name := "p1" },
            { Namespace := "other", Name := "p2" }]))) sampleMapper)
        pods "default" "p1" "packets-per-second").1 = .ok s1 ∧
      s1.Value = NewMilliQuantity 100 Format.DecimalSI ∧
      (GetNamespacedMetricByName
        (GetNamespacedMetricByName
          (NewMemoryProvider
            (poolReturning (.ok (.list [{ Namespace := "default", Name := "p1" },
              { Namespace := "other", Name := "p2" }]))) sampleMapper)
          pods "default" "p1" "packets-per-second").2
        pods "other" "p2" "packets-per-second").1 = .ok s2 ∧
      s2.Value = NewMilliQuantity 200 Format.DecimalSI ∧
      ∃ res : List MetricValue,
        (GetNamespacedMetricBySelector
          (GetNamespacedMetricByName
            (GetNamespacedMetricByName
              (NewMemoryProvider
                (poolReturning (.ok (.list [{ Namespace := "default", Name := "p1" },
                  { Namespace := "other", Name := "p2" }]))) sampleMapper)
              pods "default" "p1" "packets-per-second").2
            pods "other" "p2" "packets-per-second").2
          pods "" "app=web" "packets-per-second").1 = .ok (.ok { Items := res }) ∧
        res.length = 2 ∧
        ∀ s ∈ res, s.Value = NewMilliQuantity 150 Format.DecimalSI := by
  obtain ⟨s1, s2, h1, h2, h3, h4, h5⟩ :=
    (counter_slot_shared
      (poolReturning (.ok (.list [{ Namespace := "default", Name := "p1" },
        { Namespace := "other", Name := "p2" }]))) sampleMapper
      pods "packets-per-second"
      { GroupResource := pods, Metric := "packets-per-second", Namespaced := true }
      { Group := "", Version := "v1", Kind := "Pod" } (by decide) (by decide)).2.2.2.2
      "default" "p1" "other" "p2"
  obtain ⟨res, h6, h7, h8⟩ :=
    (h5 "" "app=web"
      { Resource := fun _ _ =>
          { List := fun _ => .ok (.list [{ Namespace := "default", Name := "p1" },
            { Namespace := "other", Name := "p2" }]) } }
      (.list [{ Namespace := "default", Name := "p1" }, { Namespace := "other", Name := "p2" }])
      rfl rfl).2
      [{ Namespace := "default", Name := "p1" }, { Namespace := "other", Name := "p2" }]
      rfl (by decide)
  exact ⟨s1, s2, h1, h2, h3, h4, res, h6, h7, h8⟩

/-- Claim C18.  A failing selector query does not undo the increment.  In both
selector queries: when the client cannot be constructed, the provider is left
as it was; when the client is constructed and the identifier normalizes to
`id`, and then the list call fails, or the listed object is not a list, or the
kind of the items of a non-empty list cannot be resolved, the error is
returned and the provider left behind is the one after the increment: the
entry of `id` is the `int64` successor of its counter (the counter plus 1 when
that is a value of `int64`) and every other entry is as it was. -/
theorem selector_failure_keeps_increment (p : memoryProvider) (groupResource : GroupResource)
    (ns : String) (selector : Selector) (metricName : String) :
    (∀ err : GoError,
      p.client.ClientForGroupVersionResource (groupResource.WithVersion "") = .error err →
      GetNamespacedMetricBySelector p groupResource ns selector metricName =
        (.ok (.error (.internalError (.errorf "unable to list matching resources"))), p) ∧
      GetRootScopedMetricBySelector p groupResource selector metricName =
        (.ok (.error (.internalError (.errorf "unable to list matching resources"))), p)) ∧
    (∀ (dc : DynamicClient) (id : MetricInfo),
      p.client.ClientForGroupVersionResource (groupResource.WithVersion "") = .ok dc →
      MetricInfo.Normalized
        { GroupResource := groupResource, Metric := metricName, Namespaced := true }
        p.mapper = .ok id →
      ∀ failure : GoError,
        ((dc.Resource { Name := groupResource.Resource, Namespaced := true } ns).List
            { LabelSelector := selector } = .error failure ∨
          (∃ list, (dc.Resource { Name := groupResource.Resource, Namespaced := true } ns).List
              { LabelSelector := selector } = .ok list ∧ IsListType list = false ∧
            failure = .errorf "returned object was not a list") ∨
          (∃ item rest,
            (dc.Resource { Name := groupResource.Resource, Namespaced := true } ns).List
              { LabelSelector := selector } = .ok (.list (item :: rest)) ∧
            p.mapper.KindFor (groupResource.WithVersion "") = .error failure)) →
        (GetNamespacedMetricBySelector p groupResource ns selector metricName).1 =
          .ok (.error failure) ∧
        (GetNamespacedMetricBySelector p groupResource ns selector metricName).2.values id =
          some (int64Add (mapIndex p.values id) 1) ∧
        (inInt64 (mapIndex p.values id + 1) →
          (GetNamespacedMetricBySelector p groupResource ns selector metricName).2.values id =
            some (mapIndex p.values id + 1)) ∧
        ∀ id1 : MetricInfo, id1 ≠ id →
          (GetNamespacedMetricBySelector p groupResource ns selector metricName).2.values id1 =
            p.values id1) ∧
    (∀ (dc : DynamicClient) (id : MetricInfo),
      p.client.ClientForGroupVersionResource (groupResource.WithVersion "") = .ok dc →
      MetricInfo.Normalized
        { GroupResource := groupResource, Metric := metricName, Namespaced := false }
        p.mapper = .ok id →
      ∀ failure : GoError,
        ((dc.Resource { Name := groupResource.Resource, Namespaced := false } "").List
            { LabelSelector := selector } = .error failure ∨
          (∃ list, (dc.Resource { Name := groupResource.Resource, Namespaced := false } "").List
              { LabelSelector := selector } = .ok list ∧ IsListType list = false ∧
            failure = .errorf "returned object was not a list") ∨
          (∃ item rest,
            (dc.Resource { Name := groupResource.Resource, Namespaced := false } "").List
              { LabelSelector := selector } = .ok (.list (item :: rest)) ∧
            p.mapper.KindFor (groupResource.WithVersion "") = .error failure)) →
        (GetRootScopedMetricBySelector p groupResource selector metricName).1 =
          .ok (.error failure) ∧
        (GetRootScopedMetricBySelector p groupResource selector metricName).2.values id =
          some (int64Add (mapIndex p.values id) 1) ∧
        (inInt64 (mapIndex p.values id + 1) →
          (GetRootScopedMetricBySelector p groupResource selector metricName).2.values id =
            some (mapIndex p.values id + 1)) ∧
        ∀ id1 : MetricInfo, id1 ≠ id →
          (GetRootScopedMetricBySelector p groupResource selector metricName).2.values id1 =
            p.values id1) := by
  have hexact : ∀ id : MetricInfo, inInt64 (mapIndex p.values id + 1) →
      int64Add (mapIndex p.values id) 1 = mapIndex p.values id + 1 :=
    fun id hin => wrapInt64_eq_self hin
  refine ⟨?_, ?_, ?_⟩
  · intro err hclient
    exact ⟨GetNamespacedMetricBySelector_client_error p _ _ _ _ err hclient,
      GetRootScopedMetricBySelector_client_error p _ _ _ err hclient⟩
  · intro dc id hclient hnorm failure hfail
    have hres : GetNamespacedMetricBySelector p groupResource ns selector metricName =
        (.ok (.error failure),
         { p with values := mapAssign p.values id (int64Add (mapIndex p.values id) 1) }) := by
      rcases hfail with hl | ⟨list, hl, hshape, hf⟩ | ⟨item, rest, hl, hk⟩
      · exact GetNamespacedMetricBySelector_list_error p _ _ _ _ dc id failure hclient hnorm hl
      · rw [GetNamespacedMetricBySelector_listed p _ _ _ _ dc id list hclient hnorm hl, hf,
          metricsFor_not_list _ _ _ _ _ hshape]
      · rw [GetNamespacedMetricBySelector_listed p _ _ _ _ dc id _ hclient hnorm hl,
          metricsFor_list_error
            { client := p.client, mapper := p.mapper,
              values := mapAssign p.values id (int64Add (mapIndex p.values id) 1) }
            _ _ _ failure hk item rest]
    rw [hres]
    refine ⟨rfl, mapAssign_same _ _ _, fun hin => ?_, fun id1 hne => mapAssign_other _ _ hne⟩
    rw [← hexact id hin]
    exact mapAssign_same _ _ _
  · intro dc id hclient hnorm failure hfail
    have hres : GetRootScopedMetricBySelector p groupResource selector metricName =
        (.ok (.error failure),
         { p with values := mapAssign p.values id (int64Add (mapIndex p.values id) 1) }) := by
      rcases hfail with hl | ⟨list, hl, hshape, hf⟩ | ⟨item, rest, hl, hk⟩
      · exact GetRootScopedMetricBySelector_list_error p _ _ _ dc id failure hclient hnorm hl
      · rw [GetRootScopedMetricBySelector_listed p _ _ _ dc id list hclient hnorm hl, hf,
          metricsFor_not_list _ _ _ _ _ hshape]
      · rw [GetRootScopedMetricBySelector_listed p _ _ _ dc id _ hclient hnorm hl,
          metricsFor_list_error
            { client := p.client, mapper := p.mapper,
              values := mapAssign p.values id (int64Add (mapIndex p.values id) 1) }
            _ _ _ failure hk item rest]
    rw [hres]
    refine ⟨rfl, mapAssign_same _ _ _, fun hin => ?_, fun id1 hne => mapAssign_other _ _ hne⟩
    rw [← hexact id hin]
    exact mapAssign_same _ _ _

/-- An instance of `selector_failure_keeps_increment`: on a new provider whose
list call fails, the selector query for pods returns the error and leaves the
counter of the pods identifier at 1; with a pool that constructs no client the
counter stays absent. -/
theorem selector_failure_keeps_increment_witness :
    (GetNamespacedMetricBySelector
      (NewMemoryProvider (poolReturning (.error (.collaborator "connection refused")))
        sampleMapper)
      pods "default" "app=web" "packets-per-second").1 =
        .ok (.error (.collaborator "connection refused")) ∧
    (GetNamespacedMetricBySelector
      (NewMemoryProvider (poolReturning (.error (.collaborator "connection refused")))
        sampleMapper)
      pods "default" "app=web" "packets-per-second").2.values
        { GroupResource := pods, Metric := "packets-per-second", Namespaced := true } =
      some 1 ∧
    (GetNamespacedMetricBySelector (NewMemoryProvider brokenPool sampleMapper)
      pods "default" "app=web" "packets-per-second").2.values
        { GroupResource := pods, Metric := "packets-per-second", Namespaced := true } =
      none := by
  have h := (selector_failure_keeps_increment
    (NewMemoryProvider (poolReturning (.error (.collaborator "connection refused")))
      sampleMapper)
    pods "default" "app=web" "packets-per-second").2.1
    { Resource := fun _ _ => { List := fun _ => .error (.collaborator "connection refused") } }
    { GroupResource := pods, Metric := "packets-per-second", Namespaced := true }
    rfl (by decide) (.collaborator "connection refused") (Or.inl rfl)
  have hb := ((selector_failure_keeps_increment (NewMemoryProvider brokenPool sampleMapper)
    pods "default" "app=web" "packets-per-second").1
    (.collaborator "no client for resource") rfl).1
  exact ⟨h.1, h.2.2.1 (by decide), by rw [hb]; rfl⟩

end Provider
